import Mathlib

/-!
# aionanomsg: the `_nanomsg` extension module

A shallow embedding of `src/aionanomsg/_nanomsg.c`, the CPython extension type
`NNSocket` that wraps the nanomsg socket API, followed by theorems about it.

The C functions act on three pieces of state that the embedding makes explicit:

* the handle object `NNSocket` (its one field `s`), passed in and handed back by
  every method;
* the `World`: the engine's own state, `errno`, the interpreter's error
  indicator, the signal waiting for its handler, the trace of native calls made
  so far, the engine-owned message chunks not yet freed and the number of
  `Py_buffer` views held;
* the engine, a record `Engine σ` of the nanomsg entry points over an arbitrary
  engine state `σ`.

Constants that come from system and nanomsg headers (`EINTR`, `EAGAIN`,
`NN_TYPE_*`, the widths of `int` and `long`) are fields of `Env`.
Argument parsing (`PyArg_ParseTuple`) is the calling convention: the methods
below receive the parsed arguments.  `PyErr_CheckSignals` runs the handler of
a pending signal, which may raise any exception and may change `errno`; the
other calls into the host runtime leave `errno` as it is, and allocation in the
host runtime does not fail.
-/

namespace NanoMsg

/-! ## Host runtime -/

/-- One octet. -/
abbrev Byte := Fin 256

/-- Exception classes of the host runtime.  `KeyboardInterrupt` is what the
host's default handler of the interrupt signal raises; a handler installed by
the program may raise any of them. -/
inductive ExcKind where
  | OSError
  | BlockingIOError
  | ValueError
  | TypeError
  | NotImplementedError
  | OverflowError
  | UnicodeDecodeError
  | SystemError
  | KeyboardInterrupt
  deriving DecidableEq, Repr

/-- An exception instance: its class and, when it was built with a message,
the message.  The text the host runtime itself gives to a `TypeError` is not
modelled. -/
structure PyExc where
  kind : ExcKind
  msg : Option String
  deriving DecidableEq, Repr

/-- Host values that cross the boundary of the module.  A text string is
represented by its UTF-8 encoding. -/
inductive PyObject where
  | long (v : Int)
  | bytes (b : List Byte)
  | unicode (utf8 : List Byte)
  | None
  deriving DecidableEq, Repr

/-- Constants and host facts taken from headers that are not part of the module. -/
structure Env where
  /-- The `errno` value `EINTR`. -/
  EINTR : Int
  /-- The `errno` value `EAGAIN`. -/
  EAGAIN : Int
  /-- Option type tag `NN_TYPE_INT` of `nanomsg/nn.h`. -/
  NN_TYPE_INT : Int
  /-- Option type tag `NN_TYPE_STR` of `nanomsg/nn.h`. -/
  NN_TYPE_STR : Int
  /-- Option type tag `NN_TYPE_NONE` of `nanomsg/nn.h`. -/
  NN_TYPE_NONE : Int
  /-- The value of `sizeof(int)`. -/
  sizeof_int : Nat
  /-- The value of `sizeof(long)`. -/
  sizeof_long : Nat
  /-- Whether the host's UTF-8 decoder accepts a byte sequence. -/
  utf8_valid : List Byte → Bool

/-- The three option type tags are pairwise different. -/
def Env.tagsDistinct (env : Env) : Prop :=
  env.NN_TYPE_INT ≠ env.NN_TYPE_STR ∧ env.NN_TYPE_INT ≠ env.NN_TYPE_NONE ∧
    env.NN_TYPE_STR ≠ env.NN_TYPE_NONE

instance (env : Env) : Decidable env.tagsDistinct := by
  unfold Env.tagsDistinct; infer_instance

/-! ## The engine -/

/-- What an `int`-returning engine entry point hands back: its return value and
the value of `errno` after the call. -/
structure Ret where
  ret : Int
  errno : Int
  deriving DecidableEq, Repr

/-- What `nn_recv(s, &buf, NN_MSG, flags)` hands back: return value, `errno`,
and the engine-owned chunk stored through `&buf` (its address and contents). -/
structure RecvRet where
  ret : Int
  errno : Int
  ptr : Nat
  chunk : List Byte
  deriving DecidableEq, Repr

/-- What `nn_getsockopt(s, level, option, optval, &optsize)` hands back: return
value, `errno`, the bytes it stored at the start of `optval` and the size it
stored in `optsize`. -/
structure GetRet where
  ret : Int
  errno : Int
  written : List Byte
  optsize : Nat
  deriving DecidableEq, Repr

/-- The nanomsg entry points used by the module, over an engine state `σ`. -/
structure Engine (σ : Type) where
  nn_socket : σ → Int → Int → σ × Ret
  nn_bind : σ → Int → String → σ × Ret
  nn_connect : σ → Int → String → σ × Ret
  nn_send : σ → Int → List Byte → Nat → Int → σ × Ret
  nn_recv : σ → Int → Int → σ × RecvRet
  nn_freemsg : σ → Nat → σ
  nn_getsockopt : σ → Int → Int → Int → Bool → Nat → σ × GetRet
  nn_setsockopt : σ → Int → Int → Int → Option (List Byte) → Nat → σ × Ret
  nn_shutdown : σ → Int → Int → σ × Ret
  nn_strerror : Int → String

/-- A native call as recorded in the trace. -/
inductive Call where
  | nn_socket (domain protocol : Int)
  | nn_bind (s : Int) (addr : String)
  | nn_connect (s : Int) (addr : String)
  | nn_send (s : Int) (buf : List Byte) (len : Nat) (flags : Int)
  | nn_recv (s : Int) (flags : Int)
  | nn_freemsg (ptr : Nat)
  | nn_getsockopt (s level option : Int) (optval : Bool) (optsize : Nat)
  | nn_setsockopt (s level option : Int) (optval : Option (List Byte)) (optsize : Nat)
  | nn_shutdown (s how : Int)
  deriving DecidableEq, Repr

/-! ## State -/

/-- The object `NNSocket`: `PyObject_HEAD` and the descriptor `s`. -/
structure NNSocket where
  s : Int
  deriving DecidableEq, Repr

/-- What running the handler of a pending signal does: the exception it raises,
if it raises one, and the value it leaves in `errno` given the value found. -/
structure Handler where
  raises : Option PyExc
  errno : Int → Int

/-- Everything outside the handle object that the methods read or write. -/
structure World (σ : Type) where
  /-- State of the engine. -/
  engine : σ
  /-- The C variable `errno`. -/
  errno : Int
  /-- The interpreter's error indicator. -/
  exc : Option PyExc
  /-- The handler of the signal waiting for `PyErr_CheckSignals`, if one is. -/
  pending : Option Handler
  /-- Indeterminate contents of automatic storage that was never assigned. -/
  junk : Nat → Byte
  /-- Native calls made so far, oldest first. -/
  trace : List Call
  /-- Addresses of the chunks handed out by `nn_recv` and not yet freed. -/
  live : List Nat
  /-- Number of `Py_buffer` views currently held. -/
  views : Nat

/-- Result of a method: the handle object, the world and the returned value
(`none` is the C value `NULL`). -/
structure Out (σ : Type) (α : Type) where
  self : NNSocket
  w : World σ
  ret : α

variable {σ : Type}

/-- `PyErr_Format(kind, msg)`: store an exception with a message. -/
def PyErr_Format (w : World σ) (kind : ExcKind) (msg : String) : World σ :=
  { w with exc := some ⟨kind, some msg⟩ }

/-- `PyErr_SetNone(kind)`: store an exception without a message. -/
def PyErr_SetNone (w : World σ) (kind : ExcKind) : World σ :=
  { w with exc := some ⟨kind, none⟩ }

/-- `PyErr_Occurred()`: is the error indicator set. -/
def PyErr_Occurred (w : World σ) : Bool :=
  w.exc.isSome

/-- `PyErr_CheckSignals()`: when a signal is pending its handler runs; the call
returns -1 with the handler's exception set when the handler raises, and 0
otherwise. -/
def PyErr_CheckSignals (w : World σ) : World σ × Int :=
  match w.pending with
  | none => (w, 0)
  | some h =>
    match h.raises with
    | some e => ({ w with pending := none, errno := h.errno w.errno, exc := some e }, -1)
    | none => ({ w with pending := none, errno := h.errno w.errno }, 0)

/-- The exception `PyErr_CheckSignals` would raise: the one the handler of the
pending signal raises, `none` when no signal is pending or its handler
returns normally. -/
def World.raising (w : World σ) : Option PyExc :=
  w.pending.bind Handler.raises

/-! ## Machine integers and buffers -/

/-- Reading of a `bits`-wide two's complement pattern, after reduction of `v`
modulo `2 ^ bits`. -/
def wrapSigned (bits : Nat) (v : Int) : Int :=
  if v % 2 ^ bits < 2 ^ (bits - 1) then v % 2 ^ bits else v % 2 ^ bits - 2 ^ bits

/-- Whether `v` is representable in a signed integer of `bits` bits. -/
def inRange (bits : Nat) (v : Int) : Prop :=
  -(2 ^ (bits - 1) : Int) ≤ v ∧ v < 2 ^ (bits - 1)

instance (bits : Nat) (v : Int) : Decidable (inRange bits v) := by
  unfold inRange; infer_instance

/-- The `n` low-order octets of `m`, least significant first. -/
def natToBytes : Nat → Nat → List Byte
  | 0, _ => []
  | n + 1, m => ⟨m % 256, Nat.mod_lt _ (by decide)⟩ :: natToBytes n (m / 256)

/-- The number whose octets, least significant first, are `bs`. -/
def bytesToNat : List Byte → Nat
  | [] => 0
  | b :: bs => b.val + 256 * bytesToNat bs

/-- Object representation of an `n`-byte signed integer holding `v`. -/
def intToBytes (n : Nat) (v : Int) : List Byte :=
  natToBytes n (v % 2 ^ (8 * n)).toNat

/-- Value of the signed integer whose object representation is `bs`. -/
def bytesToInt (bs : List Byte) : Int :=
  wrapSigned (8 * bs.length) (bytesToNat bs)

/-- Contents of a `cap`-byte automatic buffer after the engine stored `written`
at its start: positions the engine did not store keep their indeterminate
contents. -/
def storeInto (cap : Nat) (junk : Nat → Byte) (written : List Byte) : List Byte :=
  (List.range cap).map fun i => written.getD i (junk i)

/-- `PyLong_AsLong(value)`: the `long` result and the world, with
`OverflowError` or `TypeError` set (and -1 returned) when there is none. -/
def PyLong_AsLong (env : Env) (w : World σ) (value : PyObject) : World σ × Int :=
  match value with
  | PyObject.long v =>
    if inRange (8 * env.sizeof_long) v then (w, v)
    else (PyErr_Format w ExcKind.OverflowError "Python int too large to convert to C long", -1)
  | _ => (PyErr_SetNone w ExcKind.TypeError, -1)

/-- `PyBytes_AsString(value)`: the octets of a bytes object, or `NULL` with
`TypeError` set. -/
def PyBytes_AsString (w : World σ) (value : PyObject) : World σ × Option (List Byte) :=
  match value with
  | PyObject.bytes b => (w, some b)
  | _ => (PyErr_SetNone w ExcKind.TypeError, none)

/-- `PyBytes_Size(value)` for a value `PyBytes_AsString` accepted. -/
def PyBytes_Size (value : PyObject) : Nat :=
  match value with
  | PyObject.bytes b => b.length
  | _ => 0

/-- `PyBytes_FromStringAndSize(buf, n)`: a bytes object holding the first `n`
octets at `buf`; a negative `n` is refused with `SystemError`. -/
def PyBytes_FromStringAndSize (w : World σ) (buf : List Byte) (n : Int) :
    World σ × Option PyObject :=
  if n < 0 then
    (PyErr_Format w ExcKind.SystemError "Negative size passed to PyBytes_FromStringAndSize", none)
  else (w, some (PyObject.bytes (buf.take n.toNat)))

/-- `PyUnicode_FromStringAndSize(buf, n)`: the text string decoded from the
first `n` octets at `buf`, or `NULL` with `UnicodeDecodeError` set. -/
def PyUnicode_FromStringAndSize (env : Env) (w : World σ) (buf : List Byte) (n : Nat) :
    World σ × Option PyObject :=
  if env.utf8_valid (buf.take n) then (w, some (PyObject.unicode (buf.take n)))
  else (PyErr_SetNone w ExcKind.UnicodeDecodeError, none)

/-! ## Native calls

Each wrapper performs one engine call: it advances the engine state, stores
the `errno` the call left behind and appends the call to the trace.  The
macros `Py_BEGIN_ALLOW_THREADS` and `Py_END_ALLOW_THREADS` around the calls
leave all of this state as it is. -/

/-- Bookkeeping shared by the native calls. -/
def World.after (w : World σ) (engine : σ) (errno : Int) (c : Call) : World σ :=
  { w with engine := engine, errno := errno, trace := w.trace ++ [c] }

/-- The call `nn_socket(domain, protocol)`. -/
def call_nn_socket (E : Engine σ) (w : World σ) (domain protocol : Int) : World σ × Int :=
  let r := E.nn_socket w.engine domain protocol
  (w.after r.1 r.2.errno (Call.nn_socket domain protocol), r.2.ret)

/-- The call `nn_bind(s, addr)`. -/
def call_nn_bind (E : Engine σ) (w : World σ) (s : Int) (addr : String) : World σ × Int :=
  let r := E.nn_bind w.engine s addr
  (w.after r.1 r.2.errno (Call.nn_bind s addr), r.2.ret)

/-- The call `nn_connect(s, addr)`. -/
def call_nn_connect (E : Engine σ) (w : World σ) (s : Int) (addr : String) : World σ × Int :=
  let r := E.nn_connect w.engine s addr
  (w.after r.1 r.2.errno (Call.nn_connect s addr), r.2.ret)

/-- The call `nn_send(s, buf, len, flags)`. -/
def call_nn_send (E : Engine σ) (w : World σ) (s : Int) (buf : List Byte) (len : Nat)
    (flags : Int) : World σ × Int :=
  let r := E.nn_send w.engine s buf len flags
  (w.after r.1 r.2.errno (Call.nn_send s buf len flags), r.2.ret)

/-- The call `nn_recv(s, &buf, NN_MSG, flags)`.  When it does not return -1 the
engine has handed out the chunk at `ptr`, which stays outstanding until it is
freed.  The result is the world, `nbytes`, and `buf` as address and contents. -/
def call_nn_recv (E : Engine σ) (w : World σ) (s : Int) (flags : Int) :
    World σ × Int × Nat × List Byte :=
  let r := E.nn_recv w.engine s flags
  let w1 := w.after r.1 r.2.errno (Call.nn_recv s flags)
  (if r.2.ret ≠ -1 then { w1 with live := r.2.ptr :: w1.live } else w1,
    r.2.ret, r.2.ptr, r.2.chunk)

/-- The call `nn_freemsg(ptr)`: the chunk is no longer outstanding. -/
def call_nn_freemsg (E : Engine σ) (w : World σ) (ptr : Nat) : World σ :=
  { w with engine := E.nn_freemsg w.engine ptr,
           trace := w.trace ++ [Call.nn_freemsg ptr],
           live := w.live.erase ptr }

/-- The call `nn_getsockopt(s, level, option, optval, &optsize)`; `optval` says
whether the pointer is non-null, `size` is the capacity passed in `optsize`.
The result is the world, `r`, the contents of the buffer and `optsize`. -/
def call_nn_getsockopt (E : Engine σ) (w : World σ) (s level option : Int) (optval : Bool)
    (size : Nat) : World σ × Int × List Byte × Nat :=
  let r := E.nn_getsockopt w.engine s level option optval size
  (w.after r.1 r.2.errno (Call.nn_getsockopt s level option optval size),
    r.2.ret, storeInto size w.junk r.2.written, r.2.optsize)

/-- The call `nn_setsockopt(s, level, option, optval, optsize)`. -/
def call_nn_setsockopt (E : Engine σ) (w : World σ) (s level option : Int)
    (optval : Option (List Byte)) (optsize : Nat) : World σ × Int :=
  let r := E.nn_setsockopt w.engine s level option optval optsize
  (w.after r.1 r.2.errno (Call.nn_setsockopt s level option optval optsize), r.2.ret)

/-- The call `nn_shutdown(s, how)`. -/
def call_nn_shutdown (E : Engine σ) (w : World σ) (s how : Int) : World σ × Int :=
  let r := E.nn_shutdown w.engine s how
  (w.after r.1 r.2.errno (Call.nn_shutdown s how), r.2.ret)

/-! ## The methods of `NNSocket` -/

/-- The function `NNSocket_init` (lines 18-34), after `PyArg_ParseTuple`
accepted `domain` and `protocol`. -/
def NNSocket_init (E : Engine σ) (self : NNSocket) (w : World σ) (domain protocol : Int) :
    Out σ Int :=
  let c := call_nn_socket E w domain protocol
  if c.2 = -1 then
    ⟨self, PyErr_Format c.1 ExcKind.OSError ("nn_socket error: " ++ E.nn_strerror c.1.errno), -1⟩
  else
    ⟨{ self with s := c.2 }, c.1, 0⟩

/-- The method `_nn_bind` (lines 36-49). -/
def NNSocket__nn_bind (E : Engine σ) (self : NNSocket) (w : World σ) (addr : String) :
    Out σ (Option PyObject) :=
  let c := call_nn_bind E w self.s addr
  if c.2 = -1 then
    ⟨self, PyErr_Format c.1 ExcKind.OSError ("nn_bind error: " ++ E.nn_strerror c.1.errno), none⟩
  else
    ⟨self, c.1, some (PyObject.long c.2)⟩

/-- The method `_nn_connect` (lines 51-64). -/
def NNSocket__nn_connect (E : Engine σ) (self : NNSocket) (w : World σ) (addr : String) :
    Out σ (Option PyObject) :=
  let c := call_nn_connect E w self.s addr
  if c.2 = -1 then
    ⟨self, PyErr_Format c.1 ExcKind.OSError ("nn_connect error: " ++ E.nn_strerror c.1.errno),
      none⟩
  else
    ⟨self, c.1, some (PyObject.long c.2)⟩

/-- Lines 82-92 of `_nn_send`, reached by `break`: release the view, then
translate `nbytes`. -/
def NNSocket__nn_send_after (env : Env) (E : Engine σ) (self : NNSocket) (w : World σ)
    (nbytes : Int) : Out σ (Option PyObject) :=
  let w1 := { w with views := w.views - 1 }
  if nbytes = -1 then
    if w1.errno = env.EAGAIN then
      ⟨self, PyErr_SetNone w1 ExcKind.BlockingIOError, none⟩
    else if !PyErr_Occurred w1 then
      ⟨self, PyErr_Format w1 ExcKind.OSError ("nn_send error: " ++ E.nn_strerror w1.errno), none⟩
    else
      ⟨self, w1, none⟩
  else
    ⟨self, w1, some (PyObject.long nbytes)⟩

/-- The method `_nn_send` (lines 66-93), after `PyArg_ParseTuple` accepted the
arguments and acquired the view `data`.  The body of `while (1)` leaves the
loop on every path, by `break` (line 79) or by `return NULL` (line 80), so it
runs once. -/
def NNSocket__nn_send (env : Env) (E : Engine σ) (self : NNSocket) (w : World σ)
    (data : List Byte) (flags : Int) : Out σ (Option PyObject) :=
  let w0 := { w with views := w.views + 1 }
  let c := call_nn_send E w0 self.s data data.length flags
  if c.2 ≠ -1 ∨ c.1.errno ≠ env.EINTR then
    NNSocket__nn_send_after env E self c.1 c.2
  else
    let k := PyErr_CheckSignals c.1
    if k.2 ≠ 0 then
      NNSocket__nn_send_after env E self k.1 c.2
    else
      ⟨self, k.1, none⟩

/-- Lines 113-124 of `_nn_recv`, reached by `break`: translate `nbytes`, copy
the chunk and free it. -/
def NNSocket__nn_recv_after (env : Env) (E : Engine σ) (self : NNSocket) (w : World σ)
    (nbytes : Int) (ptr : Nat) (chunk : List Byte) : Out σ (Option PyObject) :=
  if nbytes = -1 then
    if w.errno = env.EAGAIN then
      ⟨self, PyErr_SetNone w ExcKind.BlockingIOError, none⟩
    else if !PyErr_Occurred w then
      ⟨self, PyErr_Format w ExcKind.OSError ("nn_recv error: " ++ E.nn_strerror w.errno), none⟩
    else
      ⟨self, w, none⟩
  else
    let d := PyBytes_FromStringAndSize w chunk nbytes
    ⟨self, call_nn_freemsg E d.1 ptr, d.2⟩

/-- The method `_nn_recv` (lines 95-125).  As in `_nn_send` the body of
`while (1)` runs once: it ends in `break` (line 109) or `return NULL`
(line 111). -/
def NNSocket__nn_recv (env : Env) (E : Engine σ) (self : NNSocket) (w : World σ)
    (flags : Int) : Out σ (Option PyObject) :=
  let c := call_nn_recv E w self.s flags
  if c.2.1 ≠ -1 ∨ c.1.errno ≠ env.EINTR then
    NNSocket__nn_recv_after env E self c.1 c.2.1 c.2.2.1 c.2.2.2
  else
    let k := PyErr_CheckSignals c.1
    if k.2 ≠ 0 then
      NNSocket__nn_recv_after env E self k.1 c.2.1 c.2.2.1 c.2.2.2
    else
      ⟨self, PyErr_SetNone k.1 ExcKind.ValueError, none⟩

/-- Lines 152-166 of `_nn_getsockopt`: the native call with the buffer chosen
for `type`, the overflow check and the decoding. -/
def NNSocket__nn_getsockopt_call (env : Env) (E : Engine σ) (self : NNSocket) (w : World σ)
    (level option type : Int) (optval : Bool) (size : Nat) : Out σ (Option PyObject) :=
  let c := call_nn_getsockopt E w self.s level option optval size
  if c.2.1 = -1 then
    ⟨self, PyErr_Format c.1 ExcKind.OSError ("nn_getsockopt error: " ++ E.nn_strerror c.1.errno),
      none⟩
  else if c.2.2.2 > size then
    ⟨self, PyErr_Format c.1 ExcKind.ValueError "internal overflow", none⟩
  else if type = env.NN_TYPE_INT then
    ⟨self, c.1, some (PyObject.long (bytesToInt c.2.2.1))⟩
  else if type = env.NN_TYPE_STR then
    let u := PyUnicode_FromStringAndSize env c.1 c.2.2.1 c.2.2.2
    ⟨self, u.1, u.2⟩
  else
    ⟨self, c.1, some PyObject.None⟩

/-- The method `_nn_getsockopt` (lines 127-167). -/
def NNSocket__nn_getsockopt (env : Env) (E : Engine σ) (self : NNSocket) (w : World σ)
    (level option type : Int) : Out σ (Option PyObject) :=
  if type = env.NN_TYPE_INT then
    NNSocket__nn_getsockopt_call env E self w level option type true env.sizeof_int
  else if type = env.NN_TYPE_STR then
    NNSocket__nn_getsockopt_call env E self w level option type true 4096
  else if type = env.NN_TYPE_NONE then
    NNSocket__nn_getsockopt_call env E self w level option type false 0
  else
    ⟨self, PyErr_Format w ExcKind.TypeError ("invalid symbol type: " ++ toString type), none⟩

/-- Lines 201-207 of `_nn_setsockopt`: the native call and its translation. -/
def NNSocket__nn_setsockopt_call (E : Engine σ) (self : NNSocket) (w : World σ)
    (level option : Int) (optval : Option (List Byte)) (optsize : Nat) :
    Out σ (Option PyObject) :=
  let c := call_nn_setsockopt E w self.s level option optval optsize
  if c.2 = -1 then
    ⟨self, PyErr_Format c.1 ExcKind.OSError ("nn_setsockopt error: " ++ E.nn_strerror c.1.errno),
      none⟩
  else
    ⟨self, c.1, some PyObject.None⟩

/-- The method `_nn_setsockopt` (lines 169-208).  The assignment
`intval = PyLong_AsLong(value)` narrows the `long` to `int`. -/
def NNSocket__nn_setsockopt (env : Env) (E : Engine σ) (self : NNSocket) (w : World σ)
    (level option type : Int) (value : PyObject) : Out σ (Option PyObject) :=
  if type = env.NN_TYPE_INT then
    let a := PyLong_AsLong env w value
    let intval := wrapSigned (8 * env.sizeof_int) a.2
    if PyErr_Occurred a.1 then
      ⟨self, a.1, none⟩
    else
      NNSocket__nn_setsockopt_call E self a.1 level option
        (some (intToBytes env.sizeof_int intval)) env.sizeof_int
  else if type = env.NN_TYPE_STR then
    let b := PyBytes_AsString w value
    match b.2 with
    | none => ⟨self, b.1, none⟩
    | some strptr =>
      NNSocket__nn_setsockopt_call E self b.1 level option (some strptr) (PyBytes_Size value)
  else if type = env.NN_TYPE_NONE then
    NNSocket__nn_setsockopt_call E self w level option none 0
  else
    ⟨self, PyErr_Format w ExcKind.TypeError ("invalid symbol type: " ++ toString type), none⟩

/-- The method `_nn_shutdown` (lines 210-222). -/
def NNSocket__nn_shutdown (E : Engine σ) (self : NNSocket) (w : World σ) (eid : Int) :
    Out σ (Option PyObject) :=
  let c := call_nn_shutdown E w self.s eid
  if c.2 = -1 then
    ⟨self, PyErr_Format c.1 ExcKind.OSError ("nn_shutdown error: " ++ E.nn_strerror c.1.errno),
      none⟩
  else
    ⟨self, c.1, some PyObject.None⟩

/-- The method `_nn_get_statistic` (lines 224-226). -/
def NNSocket__nn_get_statistic (self : NNSocket) (w : World σ) : Out σ (Option PyObject) :=
  ⟨self, PyErr_Format w ExcKind.NotImplementedError "", none⟩

/-- The method `_nn_device` (lines 228-230). -/
def NNSocket__nn_device (self : NNSocket) (w : World σ) : Out σ (Option PyObject) :=
  ⟨self, PyErr_Format w ExcKind.NotImplementedError "", none⟩

/-- The method table `NNSocket_methods` (lines 233-247): the calls a host
program can make on a handle, with their parsed arguments. -/
inductive Op where
  | _nn_bind (addr : String)
  | _nn_connect (addr : String)
  | _nn_send (data : List Byte) (flags : Int)
  | _nn_recv (flags : Int)
  | _nn_getsockopt (level option type : Int)
  | _nn_setsockopt (level option type : Int) (value : PyObject)
  | _nn_shutdown (eid : Int)
  | _nn_get_statistic
  | _nn_device

/-- Dispatch of one method call through the method table. -/
def Op.run (env : Env) (E : Engine σ) (self : NNSocket) (w : World σ) :
    Op → Out σ (Option PyObject)
  | Op._nn_bind addr => NNSocket__nn_bind E self w addr
  | Op._nn_connect addr => NNSocket__nn_connect E self w addr
  | Op._nn_send data flags => NNSocket__nn_send env E self w data flags
  | Op._nn_recv flags => NNSocket__nn_recv env E self w flags
  | Op._nn_getsockopt level option type => NNSocket__nn_getsockopt env E self w level option type
  | Op._nn_setsockopt level option type value =>
    NNSocket__nn_setsockopt env E self w level option type value
  | Op._nn_shutdown eid => NNSocket__nn_shutdown E self w eid
  | Op._nn_get_statistic => NNSocket__nn_get_statistic self w
  | Op._nn_device => NNSocket__nn_device self w

/-- A sequence of method calls on one handle, each starting from the handle and
world the previous one left. -/
def runOps (env : Env) (E : Engine σ) (self : NNSocket) (w : World σ) :
    List Op → NNSocket × World σ
  | [] => (self, w)
  | op :: ops => runOps env E (op.run env E self w).self (op.run env E self w).w ops

/-- The call `_nn_setsockopt(level, option, type, value)` followed by
`_nn_getsockopt(level, option, type)` on the same handle: the outcome of the
first and the outcome of the second. -/
def setThenGet (env : Env) (E : Engine σ) (self : NNSocket) (w : World σ)
    (level option type : Int) (value : PyObject) :
    Out σ (Option PyObject) × Out σ (Option PyObject) :=
  (NNSocket__nn_setsockopt env E self w level option type value,
    NNSocket__nn_getsockopt env E
      (NNSocket__nn_setsockopt env E self w level option type value).self
      (NNSocket__nn_setsockopt env E self w level option type value).w level option type)

/-- The call `_nn_send(data, flags)` on the handle `a` followed by
`_nn_recv(rflags)` on the handle `b`: the outcome of the first and the outcome
of the second. -/
def sendThenRecv (env : Env) (E : Engine σ) (a b : NNSocket) (w : World σ)
    (data : List Byte) (flags rflags : Int) :
    Out σ (Option PyObject) × Out σ (Option PyObject) :=
  (NNSocket__nn_send env E a w data flags,
    NNSocket__nn_recv env E b (NNSocket__nn_send env E a w data flags).w rflags)

/-! ## Concrete environment and engines

Used to evaluate the methods on explicit inputs. -/

/-- Is `b` a UTF-8 continuation octet. -/
def utf8_tail (b : Byte) : Bool :=
  0x80 ≤ b.val && b.val ≤ 0xBF

/-- Strict UTF-8 well-formedness (RFC 3629): shortest forms only, no
surrogates, nothing above U+10FFFF. -/
def utf8_strict : List Byte → Bool
  | [] => true
  | b0 :: rest =>
    if b0.val < 0x80 then utf8_strict rest
    else if 0xC2 ≤ b0.val ∧ b0.val ≤ 0xDF then
      match rest with
      | b1 :: r => utf8_tail b1 && utf8_strict r
      | _ => false
    else if 0xE0 ≤ b0.val ∧ b0.val ≤ 0xEF then
      match rest with
      | b1 :: b2 :: r =>
        utf8_tail b1 && utf8_tail b2 &&
          (b0.val ≠ 0xE0 || 0xA0 ≤ b1.val) && (b0.val ≠ 0xED || b1.val ≤ 0x9F) &&
          utf8_strict r
      | _ => false
    else if 0xF0 ≤ b0.val ∧ b0.val ≤ 0xF4 then
      match rest with
      | b1 :: b2 :: b3 :: r =>
        utf8_tail b1 && utf8_tail b2 && utf8_tail b3 &&
          (b0.val ≠ 0xF0 || 0x90 ≤ b1.val) && (b0.val ≠ 0xF4 || b1.val ≤ 0x8F) &&
          utf8_strict r
      | _ => false
    else false

/-- The values on Linux x86-64 with nanomsg 1.x: `EINTR` 4, `EAGAIN` 11,
`NN_TYPE_INT` 1, `NN_TYPE_STR` 2, `NN_TYPE_NONE` 0, 4-byte `int`, 8-byte `long`. -/
def linux : Env :=
  { EINTR := 4, EAGAIN := 11, NN_TYPE_INT := 1, NN_TYPE_STR := 2, NN_TYPE_NONE := 0,
    sizeof_int := 4, sizeof_long := 8, utf8_valid := utf8_strict }

/-- A world at rest: nothing raised, no signal pending, no call made, nothing held. -/
def World.start (e : σ) : World σ :=
  { engine := e, errno := 0, exc := none, pending := none, junk := fun _ => 0,
    trace := [], live := [], views := 0 }

/-- Error text of the concrete engines. -/
def strerror (e : Int) : String :=
  "errno " ++ toString e

/-- An engine whose blocking calls are interrupted: the first `k` calls of
`nn_send` and `nn_recv` fail with `EINTR`, the later ones succeed (`nn_recv`
delivers `payload`).  The state counts the calls made. -/
def eintrEngine (env : Env) (k : Nat) (payload : List Byte) : Engine Nat :=
  { nn_socket := fun n _ _ => (n, ⟨5, 0⟩)
    nn_bind := fun n _ _ => (n, ⟨1, 0⟩)
    nn_connect := fun n _ _ => (n, ⟨1, 0⟩)
    nn_send := fun n _ _ len _ =>
      if n < k then (n + 1, ⟨-1, env.EINTR⟩) else (n + 1, ⟨len, 0⟩)
    nn_recv := fun n _ _ =>
      if n < k then (n + 1, ⟨-1, env.EINTR, 0, []⟩)
      else (n + 1, ⟨payload.length, 0, n, payload⟩)
    nn_freemsg := fun n _ => n
    nn_getsockopt := fun n _ _ _ _ _ => (n, ⟨0, 0, [], 0⟩)
    nn_setsockopt := fun n _ _ _ _ _ => (n, ⟨0, 0⟩)
    nn_shutdown := fun n _ _ => (n, ⟨0, 0⟩)
    nn_strerror := strerror }

/-- An engine on which every call fails with the `errno` value `e`. -/
def failEngine (e : Int) : Engine Unit :=
  { nn_socket := fun _ _ _ => ((), ⟨-1, e⟩)
    nn_bind := fun _ _ _ => ((), ⟨-1, e⟩)
    nn_connect := fun _ _ _ => ((), ⟨-1, e⟩)
    nn_send := fun _ _ _ _ _ => ((), ⟨-1, e⟩)
    nn_recv := fun _ _ _ => ((), ⟨-1, e, 0, []⟩)
    nn_freemsg := fun _ _ => ()
    nn_getsockopt := fun _ _ _ _ _ _ => ((), ⟨-1, e, [], 0⟩)
    nn_setsockopt := fun _ _ _ _ _ _ => ((), ⟨-1, e⟩)
    nn_shutdown := fun _ _ _ => ((), ⟨-1, e⟩)
    nn_strerror := strerror }

/-- An engine that keeps, for each socket, level and option, the bytes last
passed to `nn_setsockopt`, and hands them back with their size to
`nn_getsockopt`: it stores as many of them as the buffer offered holds and
reports the full size. -/
def storeEngine : Engine (Int → Int → Int → Option (List Byte)) :=
  { nn_socket := fun st _ _ => (st, ⟨0, 0⟩)
    nn_bind := fun st _ _ => (st, ⟨1, 0⟩)
    nn_connect := fun st _ _ => (st, ⟨1, 0⟩)
    nn_send := fun st _ _ len _ => (st, ⟨len, 0⟩)
    nn_recv := fun st _ _ => (st, ⟨-1, 11, 0, []⟩)
    nn_freemsg := fun st _ => st
    nn_getsockopt := fun st s level option optval size =>
      match st s level option with
      | some bs => (st, ⟨0, 0, if optval then bs.take size else [], bs.length⟩)
      | none => (st, ⟨-1, 92, [], size⟩)
    nn_setsockopt := fun st s level option optval optsize =>
      (fun s1 level1 option1 =>
          if s1 = s ∧ level1 = level ∧ option1 = option then
            some ((optval.getD []).take optsize)
          else st s1 level1 option1,
        ⟨0, 0⟩)
    nn_shutdown := fun st _ _ => (st, ⟨0, 0⟩)
    nn_strerror := strerror }

/-- State of `pairEngine`: the messages in flight towards each of the two sockets. -/
structure Pair where
  toA : List (List Byte)
  toB : List (List Byte)
  deriving DecidableEq, Repr

/-- An engine with two connected sockets `a` and `b`: what is sent on one is
queued for the other, and `nn_recv` delivers the oldest queued message or
fails with `errno` 11. -/
def pairEngine (a b : Int) : Engine Pair :=
  { nn_socket := fun st _ _ => (st, ⟨-1, 24⟩)
    nn_bind := fun st _ _ => (st, ⟨1, 0⟩)
    nn_connect := fun st _ _ => (st, ⟨1, 0⟩)
    nn_send := fun st s buf len _ =>
      if s = a then ({ st with toB := st.toB ++ [buf.take len] }, ⟨len, 0⟩)
      else if s = b then ({ st with toA := st.toA ++ [buf.take len] }, ⟨len, 0⟩)
      else (st, ⟨-1, 9⟩)
    nn_recv := fun st s _ =>
      if s = a then
        match st.toA with
        | m :: rest => ({ st with toA := rest }, ⟨m.length, 0, rest.length, m⟩)
        | [] => (st, ⟨-1, 11, 0, []⟩)
      else if s = b then
        match st.toB with
        | m :: rest => ({ st with toB := rest }, ⟨m.length, 0, rest.length, m⟩)
        | [] => (st, ⟨-1, 11, 0, []⟩)
      else (st, ⟨-1, 9, 0, []⟩)
    nn_freemsg := fun st _ => st
    nn_getsockopt := fun st _ _ _ _ size => (st, ⟨-1, 92, [], size⟩)
    nn_setsockopt := fun st _ _ _ _ _ => (st, ⟨-1, 92⟩)
    nn_shutdown := fun st _ _ => (st, ⟨0, 0⟩)
    nn_strerror := strerror }

/-! ## Lemmas on machine integers and buffers -/

theorem natToBytes_length (n : Nat) : ∀ m : Nat, (natToBytes n m).length = n := by
  induction n with
  | zero => intro m; rfl
  | succ n ih => intro m; simp [natToBytes, ih]

theorem bytesToNat_natToBytes (n : Nat) : ∀ m : Nat, bytesToNat (natToBytes n m) = m % 256 ^ n := by
  induction n with
  | zero => intro m; simp [natToBytes, bytesToNat, Nat.mod_one]
  | succ n ih =>
    intro m
    simp only [natToBytes, bytesToNat, ih]
    rw [pow_succ', Nat.mod_mul]

theorem storeInto_length (cap : Nat) (junk : Nat → Byte) (written : List Byte) :
    (storeInto cap junk written).length = cap := by
  simp [storeInto]

theorem storeInto_take (cap : Nat) (junk : Nat → Byte) (written : List Byte)
    (h : written.length ≤ cap) :
    (storeInto cap junk written).take written.length = written := by
  apply List.ext_getElem
  · simp [storeInto, h]
  · intro i h1 h2
    have hi : i < written.length := h2
    simp [storeInto, List.getElem_take, List.getD_eq_getElem, hi]

theorem storeInto_full (junk : Nat → Byte) (written : List Byte) :
    storeInto written.length junk written = written := by
  have h := storeInto_take written.length junk written (Nat.le_refl _)
  rw [List.take_of_length_le (by rw [storeInto_length])] at h
  exact h

theorem wrapSigned_emod (bits : Nat) (v : Int) :
    wrapSigned bits (v % 2 ^ bits) = wrapSigned bits v := by
  simp [wrapSigned, Int.emod_emod_of_dvd]

theorem wrapSigned_of_inRange (bits : Nat) (v : Int) (hb : 0 < bits) (h : inRange bits v) :
    wrapSigned bits v = v := by
  obtain ⟨h1, h2⟩ := h
  have hp : (2 : Int) ^ bits = 2 * 2 ^ (bits - 1) := by
    obtain ⟨k, rfl⟩ : ∃ k, bits = k + 1 := ⟨bits - 1, by omega⟩
    simp [pow_succ']
  have hpos : (0 : Int) < 2 ^ (bits - 1) := by positivity
  unfold wrapSigned
  rw [hp]
  generalize (2 : Int) ^ (bits - 1) = H at *
  by_cases hv : 0 ≤ v
  · have : v % (2 * H) = v := Int.emod_eq_of_lt hv (by omega)
    rw [this]; simp [h2]
  · have : v % (2 * H) = v + 2 * H := by
      have h3 : (v + 2 * H) % (2 * H) = v + 2 * H := Int.emod_eq_of_lt (by omega) (by omega)
      rw [← h3]; simp
    rw [this]
    have : ¬ v + 2 * H < H := by omega
    simp [this]

theorem bytesToInt_intToBytes (n : Nat) (v : Int) :
    bytesToInt (intToBytes n v) = wrapSigned (8 * n) v := by
  unfold bytesToInt intToBytes
  rw [natToBytes_length, bytesToNat_natToBytes]
  have h256 : (256 : Nat) ^ n = 2 ^ (8 * n) := by
    rw [pow_mul]; norm_num
  have hnn : (0 : Int) ≤ v % 2 ^ (8 * n) := Int.emod_nonneg _ (by positivity)
  have hlt : v % 2 ^ (8 * n) < 2 ^ (8 * n) := Int.emod_lt_of_pos _ (by positivity)
  have hcast : (((v % 2 ^ (8 * n)).toNat % 256 ^ n : Nat) : Int) = v % 2 ^ (8 * n) := by
    rw [h256, Nat.mod_eq_of_lt]
    · exact Int.toNat_of_nonneg hnn
    · have := Int.toNat_of_nonneg hnn
      zify
      rw [this]
      exact_mod_cast hlt
  rw [hcast, wrapSigned_emod]

theorem wrapSigned_idem (bits : Nat) (v : Int) :
    wrapSigned bits (wrapSigned bits v) = wrapSigned bits v := by
  have h : wrapSigned bits v % 2 ^ bits = v % 2 ^ bits := by
    unfold wrapSigned
    split
    · exact Int.emod_emod_of_dvd _ (dvd_refl _)
    · rw [Int.sub_emod, Int.emod_self, sub_zero, Int.emod_emod_of_dvd _ (dvd_refl _),
        Int.emod_emod_of_dvd _ (dvd_refl _)]
  rw [← wrapSigned_emod, h, wrapSigned_emod]

/-! ## Lemmas on the methods -/

/-- No method writes the field `s` of the handle. -/
theorem Op.run_self (env : Env) (E : Engine σ) (self : NNSocket) (w : World σ) (op : Op) :
    (op.run env E self w).self = self := by
  cases op with
  | _nn_bind addr => simp only [Op.run, NNSocket__nn_bind]; split <;> rfl
  | _nn_connect addr => simp only [Op.run, NNSocket__nn_connect]; split <;> rfl
  | _nn_send data flags =>
    simp only [Op.run, NNSocket__nn_send, NNSocket__nn_send_after]
    repeat (first | rfl | split)
  | _nn_recv flags =>
    simp only [Op.run, NNSocket__nn_recv, NNSocket__nn_recv_after]
    repeat (first | rfl | split)
  | _nn_getsockopt level option type =>
    simp only [Op.run, NNSocket__nn_getsockopt, NNSocket__nn_getsockopt_call]
    repeat (first | rfl | split)
  | _nn_setsockopt level option type value =>
    simp only [Op.run, NNSocket__nn_setsockopt, NNSocket__nn_setsockopt_call]
    repeat (first | rfl | split)
  | _nn_shutdown eid => simp only [Op.run, NNSocket__nn_shutdown]; split <;> rfl
  | _nn_get_statistic => rfl
  | _nn_device => rfl

/-- A sequence of method calls leaves the handle object as it was. -/
theorem runOps_self (env : Env) (E : Engine σ) (ops : List Op) :
    ∀ (self : NNSocket) (w : World σ), (runOps env E self w ops).1 = self := by
  induction ops with
  | nil => intro self w; rfl
  | cons op ops ih =>
    intro self w
    simp only [runOps]
    rw [ih, Op.run_self]

/-- The number of views held after `_nn_send`: one more than before when the
native call failed with `EINTR` and `PyErr_CheckSignals` raised nothing, the
same as before on every other path. -/
theorem send_views (env : Env) (E : Engine σ) (self : NNSocket) (w : World σ)
    (data : List Byte) (flags : Int) :
    (NNSocket__nn_send env E self w data flags).w.views
      = if (E.nn_send w.engine self.s data data.length flags).2.ret = -1 ∧
            (E.nn_send w.engine self.s data data.length flags).2.errno = env.EINTR ∧
            w.raising = none
        then w.views + 1 else w.views := by
  simp only [NNSocket__nn_send, call_nn_send, World.after]
  generalize E.nn_send w.engine self.s data data.length flags = r
  obtain ⟨e1, ret, errno⟩ := r
  by_cases h1 : ret = -1
  · subst h1
    by_cases h2 : errno = env.EINTR
    · subst h2
      cases hp : w.pending with
      | none =>
        simp [NNSocket__nn_send_after, PyErr_CheckSignals, World.raising, hp]
      | some h =>
        cases hr : h.raises with
        | none => simp [NNSocket__nn_send_after, PyErr_CheckSignals, World.raising, hp, hr]
        | some e =>
          by_cases h3 : h.errno env.EINTR = env.EAGAIN <;>
            simp [NNSocket__nn_send_after, PyErr_CheckSignals, PyErr_SetNone, PyErr_Format,
              PyErr_Occurred, World.raising, h3, hp, hr]
    · by_cases h4 : errno = env.EAGAIN
      · subst h4
        simp [NNSocket__nn_send_after, PyErr_SetNone, h2]
      · cases hx : w.exc <;>
          simp [NNSocket__nn_send_after, PyErr_Format, PyErr_Occurred, h2, h4, hx]
  · simp [NNSocket__nn_send_after, h1]

/-- A text string returned by the decoding step of `_nn_getsockopt` is made of
the first `optsize` bytes of the buffer, and `optsize` is within the capacity. -/
theorem getsockopt_call_unicode (env : Env) (E : Engine σ) (self : NNSocket) (w : World σ)
    (level option type : Int) (optval : Bool) (size : Nat) (bs : List Byte)
    (h : (NNSocket__nn_getsockopt_call env E self w level option type optval size).ret
      = some (PyObject.unicode bs)) :
    type ≠ env.NN_TYPE_INT ∧ type = env.NN_TYPE_STR ∧
    bs = (storeInto size w.junk
            (E.nn_getsockopt w.engine self.s level option optval size).2.written).take
          (E.nn_getsockopt w.engine self.s level option optval size).2.optsize ∧
    bs.length = (E.nn_getsockopt w.engine self.s level option optval size).2.optsize ∧
    bs.length ≤ size := by
  revert h
  simp only [NNSocket__nn_getsockopt_call, call_nn_getsockopt, PyUnicode_FromStringAndSize]
  generalize E.nn_getsockopt w.engine self.s level option optval size = r
  obtain ⟨e1, ret, errno, written, optsize⟩ := r
  by_cases h3 : ret = -1
  · simp [h3]
  · by_cases h4 : optsize > size
    · simp [h3, h4]
    · have h5 : optsize ≤ size := not_lt.mp h4
      by_cases h1 : type = env.NN_TYPE_INT
      · simp [h3, h4, h1]
      · by_cases h2 : type = env.NN_TYPE_STR
        · subst h2
          by_cases h6 : env.utf8_valid (List.take optsize (storeInto size w.junk written)) = true
          · simp only [h3, h4, h1, h6, if_true, if_false]
            intro hbs
            have hbs1 : bs = List.take optsize (storeInto size w.junk written) := by
              simpa [eq_comm] using hbs
            subst hbs1
            refine ⟨h1, trivial, rfl, ?_, ?_⟩
            · simp [storeInto_length, h5]
            · simp [storeInto_length]
          · simp [h3, h4, h1, h6]
        · simp [h3, h4, h1, h2]

/-- Under the tag `NN_TYPE_STR` the method `_nn_getsockopt` offers the 4096
bytes of `strval`. -/
theorem getsockopt_str_eq (env : Env) (E : Engine σ) (self : NNSocket) (w : World σ)
    (level option : Int) (hd : env.NN_TYPE_INT ≠ env.NN_TYPE_STR) :
    NNSocket__nn_getsockopt env E self w level option env.NN_TYPE_STR
      = NNSocket__nn_getsockopt_call env E self w level option env.NN_TYPE_STR true 4096 := by
  have h1 : ¬ env.NN_TYPE_STR = env.NN_TYPE_INT := fun h => hd h.symm
  simp only [NNSocket__nn_getsockopt, h1, if_false, if_true]

/-- What `_nn_getsockopt` decodes, over `storeEngine`, after the native
`nn_setsockopt` stored `bs` and a buffer of `size` bytes holds all of it. -/
theorem store_set_then_get_call (env : Env) (self : NNSocket)
    (w : World (Int → Int → Int → Option (List Byte))) (level option type : Int)
    (bs : List Byte) (optsize size : Nat) (ho : optsize = bs.length) (h : bs.length ≤ size) :
    (NNSocket__nn_setsockopt_call storeEngine self w level option (some bs) optsize).ret
      = some PyObject.None ∧
    (NNSocket__nn_setsockopt_call storeEngine self w level option (some bs) optsize).self
      = self ∧
    (NNSocket__nn_getsockopt_call env storeEngine self
        (NNSocket__nn_setsockopt_call storeEngine self w level option (some bs) optsize).w
        level option type true size).ret
      = (if type = env.NN_TYPE_INT then
          some (PyObject.long (bytesToInt (storeInto size w.junk bs)))
        else if type = env.NN_TYPE_STR then
          (if env.utf8_valid bs then some (PyObject.unicode bs) else none)
        else some PyObject.None) ∧
    (type ≠ env.NN_TYPE_INT → type = env.NN_TYPE_STR → env.utf8_valid bs = false →
      (NNSocket__nn_getsockopt_call env storeEngine self
        (NNSocket__nn_setsockopt_call storeEngine self w level option (some bs) optsize).w
        level option type true size).w.exc = some ⟨ExcKind.UnicodeDecodeError, none⟩) := by
  subst ho
  have hlt : ¬ bs.length > size := not_lt.mpr h
  have htake : List.take bs.length (storeInto size w.junk bs) = bs := storeInto_take _ _ _ h
  refine ⟨?_, ?_, ?_, ?_⟩
  · simp [NNSocket__nn_setsockopt_call, call_nn_setsockopt, World.after, storeEngine]
  · simp [NNSocket__nn_setsockopt_call, call_nn_setsockopt, World.after, storeEngine]
  · by_cases h1 : type = env.NN_TYPE_INT
    · simp [NNSocket__nn_setsockopt_call, NNSocket__nn_getsockopt_call, call_nn_setsockopt,
        call_nn_getsockopt, World.after, storeEngine, List.take_of_length_le h, hlt, h1]
    · by_cases h2 : type = env.NN_TYPE_STR
      · subst h2
        by_cases h3 : env.utf8_valid bs = true <;>
          simp [NNSocket__nn_setsockopt_call, NNSocket__nn_getsockopt_call, call_nn_setsockopt,
            call_nn_getsockopt, World.after, storeEngine, PyUnicode_FromStringAndSize,
            PyErr_SetNone, List.take_of_length_le h, hlt, htake, h1, h3]
      · simp [NNSocket__nn_setsockopt_call, NNSocket__nn_getsockopt_call, call_nn_setsockopt,
          call_nn_getsockopt, World.after, storeEngine, List.take_of_length_le h, hlt, h1, h2]
  · intro h1 h2 h3
    subst h2
    simp [NNSocket__nn_setsockopt_call, NNSocket__nn_getsockopt_call, call_nn_setsockopt,
      call_nn_getsockopt, World.after, storeEngine, PyUnicode_FromStringAndSize,
      PyErr_SetNone, List.take_of_length_le h, hlt, htake, h1, h3]

/-- Over `storeEngine`, a value larger than the buffer offered makes the
size check of `_nn_getsockopt` fail. -/
theorem store_set_then_get_call_overflow (env : Env) (self : NNSocket)
    (w : World (Int → Int → Int → Option (List Byte))) (level option type : Int)
    (bs : List Byte) (optsize size : Nat) (ho : optsize = bs.length) (h : size < bs.length) :
    (NNSocket__nn_getsockopt_call env storeEngine self
        (NNSocket__nn_setsockopt_call storeEngine self w level option (some bs) optsize).w
        level option type true size).ret = none ∧
    (NNSocket__nn_getsockopt_call env storeEngine self
        (NNSocket__nn_setsockopt_call storeEngine self w level option (some bs) optsize).w
        level option type true size).w.exc
      = some ⟨ExcKind.ValueError, some "internal overflow"⟩ := by
  subst ho
  simp [NNSocket__nn_setsockopt_call, NNSocket__nn_getsockopt_call, call_nn_setsockopt,
    call_nn_getsockopt, World.after, storeEngine, PyErr_Format, h]

/-- The native call `nn_setsockopt` never fails over `storeEngine`. -/
theorem store_setsockopt_call (self : NNSocket)
    (w : World (Int → Int → Int → Option (List Byte))) (level option : Int)
    (optval : Option (List Byte)) (optsize : Nat) :
    (NNSocket__nn_setsockopt_call storeEngine self w level option optval optsize).ret
      = some PyObject.None ∧
    (NNSocket__nn_setsockopt_call storeEngine self w level option optval optsize).self = self ∧
    (NNSocket__nn_setsockopt_call storeEngine self w level option optval optsize).w.junk
      = w.junk := by
  simp [NNSocket__nn_setsockopt_call, call_nn_setsockopt, World.after, storeEngine]

/-- The two calls of `setThenGet` for a bytes value under the tag `NN_TYPE_STR`. -/
theorem setThenGet_str (env : Env) (self : NNSocket)
    (w : World (Int → Int → Int → Option (List Byte))) (level option : Int) (b : List Byte)
    (hd : env.NN_TYPE_INT ≠ env.NN_TYPE_STR) :
    setThenGet env storeEngine self w level option env.NN_TYPE_STR (PyObject.bytes b)
      = (NNSocket__nn_setsockopt_call storeEngine self w level option (some b) b.length,
          NNSocket__nn_getsockopt_call env storeEngine self
            (NNSocket__nn_setsockopt_call storeEngine self w level option (some b) b.length).w
            level option env.NN_TYPE_STR true 4096) := by
  have h1 : ¬ env.NN_TYPE_STR = env.NN_TYPE_INT := fun h => hd h.symm
  simp only [setThenGet, NNSocket__nn_setsockopt, NNSocket__nn_getsockopt, h1, if_false, if_true,
    PyBytes_AsString, PyBytes_Size, (store_setsockopt_call self w level option _ _).2.1]

/-- The two calls of `setThenGet` for an integer that fits a `long` under the
tag `NN_TYPE_INT`. -/
theorem setThenGet_int (env : Env) (self : NNSocket)
    (w : World (Int → Int → Int → Option (List Byte))) (level option : Int) (v : Int)
    (hexc : w.exc = none) (hv : inRange (8 * env.sizeof_long) v) :
    setThenGet env storeEngine self w level option env.NN_TYPE_INT (PyObject.long v)
      = (NNSocket__nn_setsockopt_call storeEngine self w level option
            (some (intToBytes env.sizeof_int (wrapSigned (8 * env.sizeof_int) v))) env.sizeof_int,
          NNSocket__nn_getsockopt_call env storeEngine self
            (NNSocket__nn_setsockopt_call storeEngine self w level option
              (some (intToBytes env.sizeof_int (wrapSigned (8 * env.sizeof_int) v)))
              env.sizeof_int).w
            level option env.NN_TYPE_INT true env.sizeof_int) := by
  simp only [setThenGet, NNSocket__nn_setsockopt, NNSocket__nn_getsockopt, if_true,
    PyLong_AsLong, hv, PyErr_Occurred, hexc, Option.isSome_none, Bool.false_eq_true, if_false,
    (store_setsockopt_call self w level option _ _).2.1]

/-! ## Blocking calls: `_nn_send` and `_nn_recv` -/

/-- C1: the claim is that an `EINTR` failure with no signal pending is retried
until the native call succeeds.  Here the first native call fails with `EINTR`
and the second would succeed (3 bytes sent, 2 bytes received), no signal is
pending: `_nn_send` makes one native call and returns `NULL` with no exception
set, `_nn_recv` makes one native call and returns `NULL` with a bare
`ValueError`. -/
theorem eintr_without_signal_is_not_retried :
    ((eintrEngine linux 1 [7, 8]).nn_send 1 3 [1, 2, 3] 3 0).2.ret = 3 ∧
    ((eintrEngine linux 1 [7, 8]).nn_recv 1 3 0).2.ret = 2 ∧
    (World.start 0 : World Nat).pending.isNone = true ∧
    (NNSocket__nn_send linux (eintrEngine linux 1 [7, 8]) ⟨3⟩ (World.start 0) [1, 2, 3] 0).ret
      = none ∧
    (NNSocket__nn_send linux (eintrEngine linux 1 [7, 8]) ⟨3⟩ (World.start 0) [1, 2, 3] 0).w.exc
      = none ∧
    (NNSocket__nn_send linux (eintrEngine linux 1 [7, 8]) ⟨3⟩ (World.start 0) [1, 2, 3] 0).w.trace
      = [Call.nn_send 3 [1, 2, 3] 3 0] ∧
    (NNSocket__nn_recv linux (eintrEngine linux 1 [7, 8]) ⟨3⟩ (World.start 0) 0).ret = none ∧
    (NNSocket__nn_recv linux (eintrEngine linux 1 [7, 8]) ⟨3⟩ (World.start 0) 0).w.exc
      = some ⟨ExcKind.ValueError, none⟩ ∧
    (NNSocket__nn_recv linux (eintrEngine linux 1 [7, 8]) ⟨3⟩ (World.start 0) 0).w.trace
      = [Call.nn_recv 3 0] := by
  decide

/-- C3, counterexample: the native call fails with `EINTR`, not `EAGAIN`, while
a signal is pending.  When its handler raises `KeyboardInterrupt` and leaves
`EAGAIN` in `errno`, the test of `errno` after the loop (lines 84, 114) makes
`_nn_send` and `_nn_recv` fail with `BlockingIOError`; so they do when the
handler itself raises `BlockingIOError`. -/
theorem eintr_with_raising_handler_yields_blockingioerror :
    ((failEngine linux.EINTR).nn_send () 3 [1, 2, 3] 3 0).2 = ⟨-1, linux.EINTR⟩ ∧
    ((failEngine linux.EINTR).nn_recv () 3 0).2.ret = -1 ∧
    ((failEngine linux.EINTR).nn_recv () 3 0).2.errno = linux.EINTR ∧
    linux.EINTR ≠ linux.EAGAIN ∧
    (NNSocket__nn_send linux (failEngine linux.EINTR) ⟨3⟩
      { World.start () with
        pending := some ⟨some ⟨ExcKind.KeyboardInterrupt, none⟩, fun _ => linux.EAGAIN⟩ }
      [1, 2, 3] 0).ret = none ∧
    (NNSocket__nn_send linux (failEngine linux.EINTR) ⟨3⟩
      { World.start () with
        pending := some ⟨some ⟨ExcKind.KeyboardInterrupt, none⟩, fun _ => linux.EAGAIN⟩ }
      [1, 2, 3] 0).w.exc = some ⟨ExcKind.BlockingIOError, none⟩ ∧
    (NNSocket__nn_recv linux (failEngine linux.EINTR) ⟨3⟩
      { World.start () with
        pending := some ⟨some ⟨ExcKind.KeyboardInterrupt, none⟩, fun _ => linux.EAGAIN⟩ }
      0).ret = none ∧
    (NNSocket__nn_recv linux (failEngine linux.EINTR) ⟨3⟩
      { World.start () with
        pending := some ⟨some ⟨ExcKind.KeyboardInterrupt, none⟩, fun _ => linux.EAGAIN⟩ }
      0).w.exc = some ⟨ExcKind.BlockingIOError, none⟩ ∧
    (NNSocket__nn_send linux (failEngine linux.EINTR) ⟨3⟩
      { World.start () with
        pending := some ⟨some ⟨ExcKind.BlockingIOError, none⟩, fun e => e⟩ }
      [1, 2, 3] 0).w.exc = some ⟨ExcKind.BlockingIOError, none⟩ := by
  decide

/-- C3, amended: for `_nn_send` and `_nn_recv` entered with the error indicator
clear, whatever the flags and the native result: when the native call returned
-1 with `errno` equal to `EAGAIN` the method fails with `BlockingIOError` and
not with `OSError`; and unless the native call failed with `EINTR` while the
handler of a pending signal raises, the method fails with `BlockingIOError`
only when the native call returned -1 with `errno` equal to `EAGAIN`. -/
theorem wouldblock_iff_native_eagain_unless_handler_raises (env : Env) (E : Engine σ)
    (self : NNSocket) (w : World σ) (data : List Byte) (flags : Int)
    (hne : env.EINTR ≠ env.EAGAIN) (hexc : w.exc = none) :
    ((E.nn_send w.engine self.s data data.length flags).2.ret = -1 →
      (E.nn_send w.engine self.s data data.length flags).2.errno = env.EAGAIN →
      (NNSocket__nn_send env E self w data flags).ret = none ∧
      (NNSocket__nn_send env E self w data flags).w.exc
        = some ⟨ExcKind.BlockingIOError, none⟩ ∧
      ∀ msg, (NNSocket__nn_send env E self w data flags).w.exc
        ≠ some ⟨ExcKind.OSError, msg⟩) ∧
    ((E.nn_send w.engine self.s data data.length flags).2.ret ≠ -1 ∨
        (E.nn_send w.engine self.s data data.length flags).2.errno ≠ env.EINTR ∨
        w.raising = none →
      (((NNSocket__nn_send env E self w data flags).ret = none ∧
          Option.map PyExc.kind (NNSocket__nn_send env E self w data flags).w.exc
            = some ExcKind.BlockingIOError) ↔
        ((E.nn_send w.engine self.s data data.length flags).2.ret = -1 ∧
          (E.nn_send w.engine self.s data data.length flags).2.errno = env.EAGAIN))) ∧
    ((E.nn_recv w.engine self.s flags).2.ret = -1 →
      (E.nn_recv w.engine self.s flags).2.errno = env.EAGAIN →
      (NNSocket__nn_recv env E self w flags).ret = none ∧
      (NNSocket__nn_recv env E self w flags).w.exc
        = some ⟨ExcKind.BlockingIOError, none⟩ ∧
      ∀ msg, (NNSocket__nn_recv env E self w flags).w.exc
        ≠ some ⟨ExcKind.OSError, msg⟩) ∧
    ((E.nn_recv w.engine self.s flags).2.ret ≠ -1 ∨
        (E.nn_recv w.engine self.s flags).2.errno ≠ env.EINTR ∨
        w.raising = none →
      (((NNSocket__nn_recv env E self w flags).ret = none ∧
          Option.map PyExc.kind (NNSocket__nn_recv env E self w flags).w.exc
            = some ExcKind.BlockingIOError) ↔
        ((E.nn_recv w.engine self.s flags).2.ret = -1 ∧
          (E.nn_recv w.engine self.s flags).2.errno = env.EAGAIN))) := by
  have hne' : ¬ env.EAGAIN = env.EINTR := fun h => hne h.symm
  refine ⟨?_, ?_, ?_, ?_⟩
  · simp only [NNSocket__nn_send, call_nn_send, World.after]
    generalize E.nn_send w.engine self.s data data.length flags = r
    obtain ⟨e1, ret, errno⟩ := r
    intro h1 h4
    simp only at h1 h4
    subst h1; subst h4
    simp [NNSocket__nn_send_after, PyErr_SetNone, hne']
  · simp only [NNSocket__nn_send, call_nn_send, World.after]
    generalize E.nn_send w.engine self.s data data.length flags = r
    obtain ⟨e1, ret, errno⟩ := r
    intro hq
    simp only at hq
    by_cases h1 : ret = -1
    · subst h1
      by_cases h2 : errno = env.EINTR
      · subst h2
        have hr : w.raising = none := by simpa using hq
        cases hp : w.pending with
        | none => simp [NNSocket__nn_send_after, PyErr_CheckSignals, hp, hexc, hne]
        | some h =>
          have hr' : h.raises = none := by simpa [World.raising, hp] using hr
          simp [NNSocket__nn_send_after, PyErr_CheckSignals, hp, hr', hexc, hne]
      · by_cases h4 : errno = env.EAGAIN
        · subst h4
          simp [NNSocket__nn_send_after, PyErr_SetNone, h2]
        · simp [NNSocket__nn_send_after, PyErr_Format, PyErr_Occurred, h2, h4, hexc]
    · simp [NNSocket__nn_send_after, h1]
  · simp only [NNSocket__nn_recv, call_nn_recv, World.after]
    generalize E.nn_recv w.engine self.s flags = r
    obtain ⟨e1, ret, errno, ptr, chunk⟩ := r
    intro h1 h4
    simp only at h1 h4
    subst h1; subst h4
    simp [NNSocket__nn_recv_after, PyErr_SetNone, hne']
  · simp only [NNSocket__nn_recv, call_nn_recv, World.after]
    generalize E.nn_recv w.engine self.s flags = r
    obtain ⟨e1, ret, errno, ptr, chunk⟩ := r
    intro hq
    simp only at hq
    by_cases h1 : ret = -1
    · subst h1
      by_cases h2 : errno = env.EINTR
      · subst h2
        have hr : w.raising = none := by simpa using hq
        cases hp : w.pending with
        | none =>
          simp [NNSocket__nn_recv_after, PyErr_CheckSignals, PyErr_SetNone, hp, hexc, hne]
        | some h =>
          have hr' : h.raises = none := by simpa [World.raising, hp] using hr
          simp [NNSocket__nn_recv_after, PyErr_CheckSignals, PyErr_SetNone, hp, hr', hexc, hne]
      · by_cases h4 : errno = env.EAGAIN
        · subst h4
          simp [NNSocket__nn_recv_after, PyErr_SetNone, h2]
        · simp [NNSocket__nn_recv_after, PyErr_Format, PyErr_Occurred, h2, h4, hexc]
    · by_cases h5 : ret < 0 <;>
        simp [NNSocket__nn_recv_after, call_nn_freemsg, PyBytes_FromStringAndSize, PyErr_Format,
          h1, h5, hexc]

/-- Witness of `wouldblock_iff_native_eagain_unless_handler_raises`: on Linux,
over an engine whose calls fail with `errno` 11, `_nn_send` and `_nn_recv` fail
with `BlockingIOError`; over one whose calls fail with `errno` 9 they do not. -/
theorem wouldblock_iff_native_eagain_unless_handler_raises_witness :
    linux.EINTR ≠ linux.EAGAIN ∧ (World.start ()).exc = none ∧
    ((NNSocket__nn_send linux (failEngine 11) ⟨3⟩ (World.start ()) [1, 2, 3] 0).ret = none ∧
      (NNSocket__nn_send linux (failEngine 11) ⟨3⟩ (World.start ()) [1, 2, 3] 0).w.exc
        = some ⟨ExcKind.BlockingIOError, none⟩) ∧
    ((NNSocket__nn_recv linux (failEngine 11) ⟨3⟩ (World.start ()) 1).ret = none ∧
      (NNSocket__nn_recv linux (failEngine 11) ⟨3⟩ (World.start ()) 1).w.exc
        = some ⟨ExcKind.BlockingIOError, none⟩) ∧
    ¬ ((NNSocket__nn_send linux (failEngine 9) ⟨3⟩ (World.start ()) [1, 2, 3] 0).ret = none ∧
      Option.map PyExc.kind
          (NNSocket__nn_send linux (failEngine 9) ⟨3⟩ (World.start ()) [1, 2, 3] 0).w.exc
        = some ExcKind.BlockingIOError) ∧
    ¬ ((NNSocket__nn_recv linux (failEngine 9) ⟨3⟩ (World.start ()) 1).ret = none ∧
      Option.map PyExc.kind
          (NNSocket__nn_recv linux (failEngine 9) ⟨3⟩ (World.start ()) 1).w.exc
        = some ExcKind.BlockingIOError) :=
  ⟨by decide, rfl,
    ⟨((wouldblock_iff_native_eagain_unless_handler_raises linux (failEngine 11) ⟨3⟩
        (World.start ()) [1, 2, 3] 0 (by decide) rfl).1 (by decide) (by decide)).1,
      ((wouldblock_iff_native_eagain_unless_handler_raises linux (failEngine 11) ⟨3⟩
        (World.start ()) [1, 2, 3] 0 (by decide) rfl).1 (by decide) (by decide)).2.1⟩,
    ⟨((wouldblock_iff_native_eagain_unless_handler_raises linux (failEngine 11) ⟨3⟩
        (World.start ()) [1, 2, 3] 1 (by decide) rfl).2.2.1 (by decide) (by decide)).1,
      ((wouldblock_iff_native_eagain_unless_handler_raises linux (failEngine 11) ⟨3⟩
        (World.start ()) [1, 2, 3] 1 (by decide) rfl).2.2.1 (by decide) (by decide)).2.1⟩,
    fun h => absurd (((wouldblock_iff_native_eagain_unless_handler_raises linux (failEngine 9)
      ⟨3⟩ (World.start ()) [1, 2, 3] 0 (by decide) rfl).2.1
        (Or.inr (Or.inl (by decide)))).mp h).2 (by decide),
    fun h => absurd (((wouldblock_iff_native_eagain_unless_handler_raises linux (failEngine 9)
      ⟨3⟩ (World.start ()) [1, 2, 3] 1 (by decide) rfl).2.2.2
        (Or.inr (Or.inl (by decide)))).mp h).2 (by decide)⟩

/-- C7: for every byte sequence `m` and flags, `_nn_send` makes the one native
call `nn_send(s, m, |m|, flags)` and, when that call does not fail, returns
the engine's byte count; `_nn_recv`, when its native call returns a count
`n ≥ 0`, returns the first `n` bytes of the engine's chunk; and over
`pairEngine`, with nothing in flight towards `b`, `_nn_send(m)` on `a`
followed by `_nn_recv` on `b` returns `m`. -/
theorem send_then_recv_returns_message (env : Env) (E : Engine σ) (self : NNSocket)
    (w : World σ) (m : List Byte) (flags rflags : Int) :
    (NNSocket__nn_send env E self w m flags).w.trace
      = w.trace ++ [Call.nn_send self.s m m.length flags] ∧
    ((E.nn_send w.engine self.s m m.length flags).2.ret ≠ -1 →
      (NNSocket__nn_send env E self w m flags).ret
        = some (PyObject.long (E.nn_send w.engine self.s m m.length flags).2.ret)) ∧
    (0 ≤ (E.nn_recv w.engine self.s rflags).2.ret →
      (NNSocket__nn_recv env E self w rflags).ret
        = some (PyObject.bytes ((E.nn_recv w.engine self.s rflags).2.chunk.take
            (E.nn_recv w.engine self.s rflags).2.ret.toNat))) ∧
    (∀ (a b : Int) (wp : World Pair), a ≠ b → wp.engine.toB = [] →
      (sendThenRecv env (pairEngine a b) ⟨a⟩ ⟨b⟩ wp m flags rflags).1.ret
        = some (PyObject.long m.length) ∧
      (sendThenRecv env (pairEngine a b) ⟨a⟩ ⟨b⟩ wp m flags rflags).2.ret
        = some (PyObject.bytes m)) := by
  refine ⟨?_, ?_, ?_, ?_⟩
  · simp only [NNSocket__nn_send, call_nn_send, World.after]
    generalize E.nn_send w.engine self.s m m.length flags = r
    obtain ⟨e1, ret, errno⟩ := r
    by_cases h1 : ret = -1
    · subst h1
      by_cases h2 : errno = env.EINTR
      · subst h2
        cases hp : w.pending with
        | none => simp [NNSocket__nn_send_after, PyErr_CheckSignals, hp]
        | some h =>
          cases hr : h.raises with
          | none => simp [NNSocket__nn_send_after, PyErr_CheckSignals, hp, hr]
          | some e =>
            by_cases h3 : h.errno env.EINTR = env.EAGAIN <;>
              simp [NNSocket__nn_send_after, PyErr_CheckSignals, PyErr_SetNone, PyErr_Format,
                PyErr_Occurred, h3, hp, hr]
      · by_cases h4 : errno = env.EAGAIN
        · subst h4
          simp [NNSocket__nn_send_after, PyErr_SetNone, h2]
        · cases hx : w.exc <;>
            simp [NNSocket__nn_send_after, PyErr_Format, PyErr_Occurred, h2, h4, hx]
    · simp [NNSocket__nn_send_after, h1]
  · intro h1
    simp [NNSocket__nn_send, NNSocket__nn_send_after, call_nn_send, World.after, h1]
  · intro h0
    have h1 : (E.nn_recv w.engine self.s rflags).2.ret ≠ -1 := by omega
    have h5 : ¬ (E.nn_recv w.engine self.s rflags).2.ret < 0 := not_lt.mpr h0
    simp [NNSocket__nn_recv, NNSocket__nn_recv_after, call_nn_recv, call_nn_freemsg,
      World.after, PyBytes_FromStringAndSize, h1, h5]
  · intro a b wp hab hB
    have hba : ¬ b = a := fun h => hab h.symm
    have hlen : ¬ ((m.length : Int) = -1) := by omega
    have hlen0 : ¬ ((m.length : Int) < 0) := by omega
    simp [sendThenRecv, NNSocket__nn_send, NNSocket__nn_send_after, NNSocket__nn_recv,
      NNSocket__nn_recv_after, call_nn_send, call_nn_recv, call_nn_freemsg, World.after,
      PyBytes_FromStringAndSize, pairEngine, hB, hba, hlen, hlen0]

/-- Witness of `send_then_recv_returns_message`: three bytes sent on socket 3
arrive on socket 4; over `eintrEngine` with no interruption the byte count 3
and the message `[7, 8]` are returned. -/
theorem send_then_recv_returns_message_witness :
    ((3 : Int) ≠ 4 ∧ (World.start (⟨[], []⟩ : Pair)).engine.toB = [] ∧
      (sendThenRecv linux (pairEngine 3 4) ⟨3⟩ ⟨4⟩ (World.start ⟨[], []⟩) [1, 2, 3] 0 0).2.ret
        = some (PyObject.bytes [1, 2, 3])) ∧
    (((eintrEngine linux 0 [7, 8]).nn_send 0 3 [1, 2, 3] 3 0).2.ret ≠ -1 ∧
      (NNSocket__nn_send linux (eintrEngine linux 0 [7, 8]) ⟨3⟩ (World.start 0) [1, 2, 3] 0).ret
        = some (PyObject.long 3)) ∧
    (0 ≤ ((eintrEngine linux 0 [7, 8]).nn_recv 0 3 0).2.ret ∧
      (NNSocket__nn_recv linux (eintrEngine linux 0 [7, 8]) ⟨3⟩ (World.start 0) 0).ret
        = some (PyObject.bytes [7, 8])) :=
  ⟨⟨by decide, rfl,
      ((send_then_recv_returns_message linux (pairEngine 3 4) ⟨3⟩ (World.start ⟨[], []⟩)
        [1, 2, 3] 0 0).2.2.2 3 4 (World.start ⟨[], []⟩) (by decide) rfl).2⟩,
    ⟨by decide,
      ((send_then_recv_returns_message linux (eintrEngine linux 0 [7, 8]) ⟨3⟩ (World.start 0)
        [1, 2, 3] 0 0).2.1 (by decide)).trans (by decide)⟩,
    ⟨by decide,
      ((send_then_recv_returns_message linux (eintrEngine linux 0 [7, 8]) ⟨3⟩ (World.start 0)
        [1, 2, 3] 0 0).2.2.1 (by decide)).trans (by decide)⟩⟩

/-- C8: for every flags value, native result and signal state, `_nn_recv`
leaves the outstanding engine chunks as they were; the native calls it makes
are one `nn_recv`, followed by one `nn_freemsg` of the chunk handed out when
that call did not fail and by nothing when it failed; and the bytes returned
are the copy of the first `nbytes` octets of the chunk. -/
theorem recv_releases_chunk_on_every_path (env : Env) (E : Engine σ) (self : NNSocket)
    (w : World σ) (flags : Int) :
    (NNSocket__nn_recv env E self w flags).w.live = w.live ∧
    (NNSocket__nn_recv env E self w flags).w.trace
      = w.trace ++ Call.nn_recv self.s flags ::
          (if (E.nn_recv w.engine self.s flags).2.ret ≠ -1
           then [Call.nn_freemsg (E.nn_recv w.engine self.s flags).2.ptr] else []) ∧
    (0 ≤ (E.nn_recv w.engine self.s flags).2.ret →
      (NNSocket__nn_recv env E self w flags).ret
        = some (PyObject.bytes ((E.nn_recv w.engine self.s flags).2.chunk.take
            (E.nn_recv w.engine self.s flags).2.ret.toNat))) := by
  simp only [NNSocket__nn_recv, call_nn_recv, World.after]
  generalize E.nn_recv w.engine self.s flags = r
  obtain ⟨e1, ret, errno, ptr, chunk⟩ := r
  by_cases h1 : ret = -1
  · subst h1
    by_cases h2 : errno = env.EINTR
    · subst h2
      cases hp : w.pending with
      | none => simp [NNSocket__nn_recv_after, PyErr_CheckSignals, PyErr_SetNone, hp]
      | some h =>
        cases hr : h.raises with
        | none => simp [NNSocket__nn_recv_after, PyErr_CheckSignals, PyErr_SetNone, hp, hr]
        | some e =>
          by_cases h3 : h.errno env.EINTR = env.EAGAIN <;>
            simp [NNSocket__nn_recv_after, PyErr_CheckSignals, PyErr_SetNone, PyErr_Format,
              PyErr_Occurred, h3, hp, hr]
    · by_cases h4 : errno = env.EAGAIN
      · subst h4
        simp [NNSocket__nn_recv_after, PyErr_SetNone, h2]
      · cases hx : w.exc <;>
          simp [NNSocket__nn_recv_after, PyErr_Format, PyErr_Occurred, h2, h4, hx]
  · by_cases h5 : ret < 0
    · have h6 : ¬ 0 ≤ ret := not_le.mpr h5
      simp [NNSocket__nn_recv_after, call_nn_freemsg, PyBytes_FromStringAndSize, PyErr_Format,
        h1, h5, h6]
    · simp [NNSocket__nn_recv_after, call_nn_freemsg, PyBytes_FromStringAndSize, PyErr_Format,
        h1, h5]

/-- Witness of `recv_releases_chunk_on_every_path`: the engine delivers the
two-byte message `[7, 8]` while the chunk 9 of an earlier call is outstanding. -/
theorem recv_releases_chunk_on_every_path_witness :
    0 ≤ ((eintrEngine linux 0 [7, 8]).nn_recv 0 3 0).2.ret ∧
    (NNSocket__nn_recv linux (eintrEngine linux 0 [7, 8]) ⟨3⟩
      { World.start 0 with live := [9] } 0).ret = some (PyObject.bytes [7, 8]) ∧
    (NNSocket__nn_recv linux (eintrEngine linux 0 [7, 8]) ⟨3⟩
      { World.start 0 with live := [9] } 0).w.live = [9] :=
  ⟨by decide,
    ((recv_releases_chunk_on_every_path linux (eintrEngine linux 0 [7, 8]) ⟨3⟩
      { World.start 0 with live := [9] } 0).2.2 (by decide)).trans (by decide),
    (recv_releases_chunk_on_every_path linux (eintrEngine linux 0 [7, 8]) ⟨3⟩
      { World.start 0 with live := [9] } 0).1⟩

/-- C10: the claim is that `_nn_send` releases the view on the caller's buffer
on every exit path.  When the native call fails with `EINTR` and no signal is
pending, `_nn_send` returns at line 80, before `PyBuffer_Release`: one more
view is held after the call than before it. -/
theorem send_eintr_without_signal_keeps_view :
    ((failEngine linux.EINTR).nn_send () 3 [1, 2, 3] 3 0).2 = ⟨-1, linux.EINTR⟩ ∧
    (World.start () : World Unit).pending.isNone = true ∧
    (World.start () : World Unit).views = 0 ∧
    (NNSocket__nn_send linux (failEngine linux.EINTR) ⟨3⟩ (World.start ()) [1, 2, 3] 0).ret
      = none ∧
    (NNSocket__nn_send linux (failEngine linux.EINTR) ⟨3⟩ (World.start ()) [1, 2, 3] 0).w.views
      = 1 := by
  decide

/-! ## Translation of native failures -/

/-- C2, counterexample: the native call of `_nn_send` and of `_nn_recv` returns
-1 with `errno` equal to `EINTR`, which is not `EAGAIN`, and no signal is
pending; `_nn_send` returns `NULL` with no exception set and `_nn_recv` raises
a bare `ValueError`, neither raises `OSError` with the engine's error text. -/
theorem eintr_failure_is_not_oserror :
    ((failEngine linux.EINTR).nn_send () 3 [1, 2, 3] 3 0).2 = ⟨-1, linux.EINTR⟩ ∧
    ((failEngine linux.EINTR).nn_recv () 3 0).2.ret = -1 ∧
    ((failEngine linux.EINTR).nn_recv () 3 0).2.errno = linux.EINTR ∧
    linux.EINTR ≠ linux.EAGAIN ∧
    (World.start () : World Unit).pending.isNone = true ∧
    (NNSocket__nn_send linux (failEngine linux.EINTR) ⟨3⟩ (World.start ()) [1, 2, 3] 0).ret
      = none ∧
    (NNSocket__nn_send linux (failEngine linux.EINTR) ⟨3⟩ (World.start ()) [1, 2, 3] 0).w.exc
      = none ∧
    (NNSocket__nn_recv linux (failEngine linux.EINTR) ⟨3⟩ (World.start ()) 0).ret = none ∧
    (NNSocket__nn_recv linux (failEngine linux.EINTR) ⟨3⟩ (World.start ()) 0).w.exc
      = some ⟨ExcKind.ValueError, none⟩ ∧
    (NNSocket__nn_recv linux (failEngine linux.EINTR) ⟨3⟩ (World.start ()) 0).w.exc
      ≠ some ⟨ExcKind.OSError,
          some ("nn_recv error: " ++ (failEngine linux.EINTR).nn_strerror linux.EINTR)⟩ := by
  decide

/-- C2, amended: a method entered with the error indicator clear whose native
call returns -1 returns failure and raises `OSError` whose text is the name of
the native function followed by the engine's error text for `errno`: for
`NNSocket_init`, `_nn_bind`, `_nn_connect`, `_nn_shutdown`, `_nn_getsockopt`
and `_nn_setsockopt` with every `errno`, for `_nn_send` and `_nn_recv` with
every `errno` other than `EAGAIN` and `EINTR`.  With `EINTR` and a pending
signal whose handler raises and leaves in `errno` a value other than `EAGAIN`,
`_nn_send` and `_nn_recv` fail with the exception of the handler. -/
theorem native_failure_raises_oserror (env : Env) (E : Engine σ) (self : NNSocket)
    (w : World σ) (hexc : w.exc = none) :
    (∀ domain protocol, (E.nn_socket w.engine domain protocol).2.ret = -1 →
      (NNSocket_init E self w domain protocol).ret = -1 ∧
      (NNSocket_init E self w domain protocol).w.exc = some ⟨ExcKind.OSError,
        some ("nn_socket error: " ++
          E.nn_strerror (E.nn_socket w.engine domain protocol).2.errno)⟩) ∧
    (∀ addr, (E.nn_bind w.engine self.s addr).2.ret = -1 →
      (NNSocket__nn_bind E self w addr).ret = none ∧
      (NNSocket__nn_bind E self w addr).w.exc = some ⟨ExcKind.OSError,
        some ("nn_bind error: " ++ E.nn_strerror (E.nn_bind w.engine self.s addr).2.errno)⟩) ∧
    (∀ addr, (E.nn_connect w.engine self.s addr).2.ret = -1 →
      (NNSocket__nn_connect E self w addr).ret = none ∧
      (NNSocket__nn_connect E self w addr).w.exc = some ⟨ExcKind.OSError,
        some ("nn_connect error: " ++
          E.nn_strerror (E.nn_connect w.engine self.s addr).2.errno)⟩) ∧
    (∀ eid, (E.nn_shutdown w.engine self.s eid).2.ret = -1 →
      (NNSocket__nn_shutdown E self w eid).ret = none ∧
      (NNSocket__nn_shutdown E self w eid).w.exc = some ⟨ExcKind.OSError,
        some ("nn_shutdown error: " ++
          E.nn_strerror (E.nn_shutdown w.engine self.s eid).2.errno)⟩) ∧
    (∀ data flags, (E.nn_send w.engine self.s data data.length flags).2.ret = -1 →
      ((E.nn_send w.engine self.s data data.length flags).2.errno ≠ env.EAGAIN →
        (E.nn_send w.engine self.s data data.length flags).2.errno ≠ env.EINTR →
        (NNSocket__nn_send env E self w data flags).ret = none ∧
        (NNSocket__nn_send env E self w data flags).w.exc = some ⟨ExcKind.OSError,
          some ("nn_send error: " ++
            E.nn_strerror (E.nn_send w.engine self.s data data.length flags).2.errno)⟩) ∧
      ((E.nn_send w.engine self.s data data.length flags).2.errno = env.EINTR →
        ∀ h e, w.pending = some h → h.raises = some e →
        h.errno (E.nn_send w.engine self.s data data.length flags).2.errno ≠ env.EAGAIN →
        (NNSocket__nn_send env E self w data flags).ret = none ∧
        (NNSocket__nn_send env E self w data flags).w.exc = some e)) ∧
    (∀ flags, (E.nn_recv w.engine self.s flags).2.ret = -1 →
      ((E.nn_recv w.engine self.s flags).2.errno ≠ env.EAGAIN →
        (E.nn_recv w.engine self.s flags).2.errno ≠ env.EINTR →
        (NNSocket__nn_recv env E self w flags).ret = none ∧
        (NNSocket__nn_recv env E self w flags).w.exc = some ⟨ExcKind.OSError,
          some ("nn_recv error: " ++
            E.nn_strerror (E.nn_recv w.engine self.s flags).2.errno)⟩) ∧
      ((E.nn_recv w.engine self.s flags).2.errno = env.EINTR →
        ∀ h e, w.pending = some h → h.raises = some e →
        h.errno (E.nn_recv w.engine self.s flags).2.errno ≠ env.EAGAIN →
        (NNSocket__nn_recv env E self w flags).ret = none ∧
        (NNSocket__nn_recv env E self w flags).w.exc = some e)) ∧
    (∀ level option type optval size,
      (type = env.NN_TYPE_INT ∧ optval = true ∧ size = env.sizeof_int) ∨
        (type ≠ env.NN_TYPE_INT ∧ type = env.NN_TYPE_STR ∧ optval = true ∧ size = 4096) ∨
        (type ≠ env.NN_TYPE_INT ∧ type ≠ env.NN_TYPE_STR ∧ type = env.NN_TYPE_NONE ∧
          optval = false ∧ size = 0) →
      (E.nn_getsockopt w.engine self.s level option optval size).2.ret = -1 →
      (NNSocket__nn_getsockopt env E self w level option type).ret = none ∧
      (NNSocket__nn_getsockopt env E self w level option type).w.exc = some ⟨ExcKind.OSError,
        some ("nn_getsockopt error: " ++
          E.nn_strerror (E.nn_getsockopt w.engine self.s level option optval size).2.errno)⟩) ∧
    (∀ level option type value optval optsize,
      (type = env.NN_TYPE_INT ∧ (∃ v, value = PyObject.long v ∧ inRange (8 * env.sizeof_long) v ∧
          optval = some (intToBytes env.sizeof_int (wrapSigned (8 * env.sizeof_int) v))) ∧
          optsize = env.sizeof_int) ∨
        (type ≠ env.NN_TYPE_INT ∧ type = env.NN_TYPE_STR ∧
          (∃ b, value = PyObject.bytes b ∧ optval = some b ∧ optsize = b.length)) ∨
        (type ≠ env.NN_TYPE_INT ∧ type ≠ env.NN_TYPE_STR ∧ type = env.NN_TYPE_NONE ∧
          optval = none ∧ optsize = 0) →
      (E.nn_setsockopt w.engine self.s level option optval optsize).2.ret = -1 →
      (NNSocket__nn_setsockopt env E self w level option type value).ret = none ∧
      (NNSocket__nn_setsockopt env E self w level option type value).w.exc
        = some ⟨ExcKind.OSError,
          some ("nn_setsockopt error: " ++
            E.nn_strerror (E.nn_setsockopt w.engine self.s level option optval optsize).2.errno)⟩)
    := by
  refine ⟨?_, ?_, ?_, ?_, ?_, ?_, ?_, ?_⟩
  · intro domain protocol h
    simp [NNSocket_init, call_nn_socket, World.after, PyErr_Format, h]
  · intro addr h
    simp [NNSocket__nn_bind, call_nn_bind, World.after, PyErr_Format, h]
  · intro addr h
    simp [NNSocket__nn_connect, call_nn_connect, World.after, PyErr_Format, h]
  · intro eid h
    simp [NNSocket__nn_shutdown, call_nn_shutdown, World.after, PyErr_Format, h]
  · intro data flags
    simp only [NNSocket__nn_send, call_nn_send, World.after]
    generalize E.nn_send w.engine self.s data data.length flags = r
    obtain ⟨e1, ret, errno⟩ := r
    intro h
    simp only at h
    subst h
    refine ⟨fun h4 h2 => ?_, fun h2 h e hp hr h4 => ?_⟩
    · simp only at h4 h2
      simp [NNSocket__nn_send_after, PyErr_Format, PyErr_Occurred, h2, h4, hexc]
    · simp only at h2 h4
      subst h2
      simp [NNSocket__nn_send_after, PyErr_CheckSignals, PyErr_Occurred, h4, hp, hr]
  · intro flags
    simp only [NNSocket__nn_recv, call_nn_recv, World.after]
    generalize E.nn_recv w.engine self.s flags = r
    obtain ⟨e1, ret, errno, ptr, chunk⟩ := r
    intro h
    simp only at h
    subst h
    refine ⟨fun h4 h2 => ?_, fun h2 h e hp hr h4 => ?_⟩
    · simp only at h4 h2
      simp [NNSocket__nn_recv_after, PyErr_Format, PyErr_Occurred, h2, h4, hexc]
    · simp only at h2 h4
      subst h2
      simp [NNSocket__nn_recv_after, PyErr_CheckSignals, PyErr_Occurred, h4, hp, hr]
  · intro level option type optval size hcase h
    rcases hcase with ⟨h1, h2, h3⟩ | ⟨h0, h1, h2, h3⟩ | ⟨h0, h0', h1, h2, h3⟩ <;>
      subst h2 <;> subst h3 <;>
      simp_all [NNSocket__nn_getsockopt, NNSocket__nn_getsockopt_call, call_nn_getsockopt,
        World.after, PyErr_Format]
  · intro level option type value optval optsize hcase h
    rcases hcase with ⟨h1, ⟨v, hv, hr, h2⟩, h3⟩ | ⟨h0, h1, b, hb, h2, h3⟩ |
        ⟨h0, h0', h1, h2, h3⟩ <;>
      subst h2 <;> subst h3 <;>
      simp_all [NNSocket__nn_setsockopt, NNSocket__nn_setsockopt_call, call_nn_setsockopt,
        World.after, PyErr_Format, PyLong_AsLong, PyBytes_AsString, PyBytes_Size,
        PyErr_Occurred]

/-- Witness of `native_failure_raises_oserror`: over an engine whose calls fail
with `errno` 9, each method raises `OSError` with the engine's text; over one
whose calls fail with `EINTR` while a signal is pending whose handler raises
`KeyboardInterrupt` and leaves `errno` as it is, `_nn_send` and `_nn_recv` fail
with `KeyboardInterrupt`. -/
theorem native_failure_raises_oserror_witness :
    (World.start () : World Unit).exc = none ∧
    (NNSocket_init (failEngine 9) ⟨0⟩ (World.start ()) 1 16).w.exc
      = some ⟨ExcKind.OSError, some "nn_socket error: errno 9"⟩ ∧
    (NNSocket__nn_bind (failEngine 9) ⟨3⟩ (World.start ()) "tcp://*:5555").w.exc
      = some ⟨ExcKind.OSError, some "nn_bind error: errno 9"⟩ ∧
    (NNSocket__nn_connect (failEngine 9) ⟨3⟩ (World.start ()) "tcp://localhost:5555").w.exc
      = some ⟨ExcKind.OSError, some "nn_connect error: errno 9"⟩ ∧
    (NNSocket__nn_shutdown (failEngine 9) ⟨3⟩ (World.start ()) 1).w.exc
      = some ⟨ExcKind.OSError, some "nn_shutdown error: errno 9"⟩ ∧
    (NNSocket__nn_send linux (failEngine 9) ⟨3⟩ (World.start ()) [1, 2, 3] 0).w.exc
      = some ⟨ExcKind.OSError, some "nn_send error: errno 9"⟩ ∧
    (NNSocket__nn_recv linux (failEngine 9) ⟨3⟩ (World.start ()) 0).w.exc
      = some ⟨ExcKind.OSError, some "nn_recv error: errno 9"⟩ ∧
    (NNSocket__nn_send linux (failEngine 4) ⟨3⟩
      { World.start () with
        pending := some ⟨some ⟨ExcKind.KeyboardInterrupt, none⟩, fun e => e⟩ }
      [1, 2, 3] 0).w.exc = some ⟨ExcKind.KeyboardInterrupt, none⟩ ∧
    (NNSocket__nn_recv linux (failEngine 4) ⟨3⟩
      { World.start () with
        pending := some ⟨some ⟨ExcKind.KeyboardInterrupt, none⟩, fun e => e⟩ }
      0).w.exc = some ⟨ExcKind.KeyboardInterrupt, none⟩ ∧
    (NNSocket__nn_getsockopt linux (failEngine 9) ⟨3⟩ (World.start ()) 0 1 2).w.exc
      = some ⟨ExcKind.OSError, some "nn_getsockopt error: errno 9"⟩ ∧
    (NNSocket__nn_setsockopt linux (failEngine 9) ⟨3⟩ (World.start ()) 0 1 1
      (PyObject.long 7)).w.exc
      = some ⟨ExcKind.OSError, some "nn_setsockopt error: errno 9"⟩ :=
  ⟨rfl,
    (((native_failure_raises_oserror linux (failEngine 9) ⟨0⟩ (World.start ()) rfl).1
      1 16 (by decide)).2).trans (by decide),
    (((native_failure_raises_oserror linux (failEngine 9) ⟨3⟩ (World.start ()) rfl).2.1
      "tcp://*:5555" (by decide)).2).trans (by decide),
    (((native_failure_raises_oserror linux (failEngine 9) ⟨3⟩ (World.start ()) rfl).2.2.1
      "tcp://localhost:5555" (by decide)).2).trans (by decide),
    (((native_failure_raises_oserror linux (failEngine 9) ⟨3⟩ (World.start ()) rfl).2.2.2.1
      1 (by decide)).2).trans (by decide),
    ((((native_failure_raises_oserror linux (failEngine 9) ⟨3⟩ (World.start ()) rfl).2.2.2.2.1
      [1, 2, 3] 0 (by decide)).1 (by decide) (by decide)).2).trans (by decide),
    ((((native_failure_raises_oserror linux (failEngine 9) ⟨3⟩ (World.start ()) rfl).2.2.2.2.2.1
      0 (by decide)).1 (by decide) (by decide)).2).trans (by decide),
    (((native_failure_raises_oserror linux (failEngine 4) ⟨3⟩
      { World.start () with
        pending := some ⟨some ⟨ExcKind.KeyboardInterrupt, none⟩, fun e => e⟩ }
      rfl).2.2.2.2.1 [1, 2, 3] 0 (by decide)).2 (by decide) _ _ rfl rfl (by decide)).2,
    (((native_failure_raises_oserror linux (failEngine 4) ⟨3⟩
      { World.start () with
        pending := some ⟨some ⟨ExcKind.KeyboardInterrupt, none⟩, fun e => e⟩ }
      rfl).2.2.2.2.2.1 0 (by decide)).2 (by decide) _ _ rfl rfl (by decide)).2,
    (((native_failure_raises_oserror linux (failEngine 9) ⟨3⟩ (World.start ()) rfl).2.2.2.2.2.2.1
      0 1 2 true 4096 (Or.inr (Or.inl ⟨by decide, by decide, rfl, rfl⟩)) (by decide)).2).trans
      (by decide),
    (((native_failure_raises_oserror linux (failEngine 9) ⟨3⟩ (World.start ()) rfl).2.2.2.2.2.2.2
      0 1 1 (PyObject.long 7) (some (intToBytes 4 (wrapSigned 32 7))) 4
      (Or.inl ⟨by decide, ⟨7, rfl, by decide, rfl⟩, rfl⟩) (by decide)).2).trans (by decide)⟩

/-! ## Socket options -/

/-- C4: for every level, option and value and every type tag other than
`NN_TYPE_INT`, `NN_TYPE_STR` and `NN_TYPE_NONE`, `_nn_getsockopt` and
`_nn_setsockopt` fail with `TypeError` and make no native call: the trace and
the engine state are as before, and the world differs from the one before the
call in the error indicator only. -/
theorem invalid_type_tag_makes_no_native_call (env : Env) (E : Engine σ) (self : NNSocket)
    (w : World σ) (level option type : Int) (value : PyObject)
    (hint : type ≠ env.NN_TYPE_INT) (hstr : type ≠ env.NN_TYPE_STR)
    (hnone : type ≠ env.NN_TYPE_NONE) :
    ((NNSocket__nn_getsockopt env E self w level option type).ret = none ∧
      (NNSocket__nn_getsockopt env E self w level option type).w.exc
        = some ⟨ExcKind.TypeError, some ("invalid symbol type: " ++ toString type)⟩ ∧
      (NNSocket__nn_getsockopt env E self w level option type).w.trace = w.trace ∧
      (NNSocket__nn_getsockopt env E self w level option type).w.engine = w.engine ∧
      (NNSocket__nn_getsockopt env E self w level option type).w
        = { w with exc := some ⟨ExcKind.TypeError,
              some ("invalid symbol type: " ++ toString type)⟩ }) ∧
    ((NNSocket__nn_setsockopt env E self w level option type value).ret = none ∧
      (NNSocket__nn_setsockopt env E self w level option type value).w.exc
        = some ⟨ExcKind.TypeError, some ("invalid symbol type: " ++ toString type)⟩ ∧
      (NNSocket__nn_setsockopt env E self w level option type value).w.trace = w.trace ∧
      (NNSocket__nn_setsockopt env E self w level option type value).w.engine = w.engine ∧
      (NNSocket__nn_setsockopt env E self w level option type value).w
        = { w with exc := some ⟨ExcKind.TypeError,
              some ("invalid symbol type: " ++ toString type)⟩ }) := by
  simp [NNSocket__nn_getsockopt, NNSocket__nn_setsockopt, PyErr_Format, hint, hstr, hnone]

/-- Witness of `invalid_type_tag_makes_no_native_call`: the tag 7 on Linux. -/
theorem invalid_type_tag_makes_no_native_call_witness :
    ((7 : Int) ≠ linux.NN_TYPE_INT ∧ (7 : Int) ≠ linux.NN_TYPE_STR ∧
      (7 : Int) ≠ linux.NN_TYPE_NONE) ∧
    (NNSocket__nn_getsockopt linux (failEngine 9) ⟨3⟩ (World.start ()) 0 1 7).w.trace = [] ∧
    (NNSocket__nn_setsockopt linux (failEngine 9) ⟨3⟩ (World.start ()) 0 1 7
      (PyObject.long 1)).w.trace = [] :=
  ⟨by decide,
    (invalid_type_tag_makes_no_native_call linux (failEngine 9) ⟨3⟩ (World.start ()) 0 1 7
      (PyObject.long 1) (by decide) (by decide) (by decide)).1.2.2.1,
    (invalid_type_tag_makes_no_native_call linux (failEngine 9) ⟨3⟩ (World.start ()) 0 1 7
      (PyObject.long 1) (by decide) (by decide) (by decide)).2.2.2.1⟩

/-- C5: with pairwise different type tags, when the native call of
`_nn_getsockopt` does not fail and reports a size greater than the capacity
offered for the tag (`sizeof(int)` for `NN_TYPE_INT`, 4096 for `NN_TYPE_STR`,
0 for `NN_TYPE_NONE`), the method returns `NULL` with `ValueError`
"internal overflow"; and whenever the method returns a text string, the string
consists of the first bytes of the buffer up to the size the engine reported,
its length is that size, and it is at most 4096. -/
theorem getsockopt_checks_reported_size (env : Env) (E : Engine σ) (self : NNSocket)
    (w : World σ) (level option type : Int) (hd : env.tagsDistinct) :
    (type = env.NN_TYPE_INT →
      (E.nn_getsockopt w.engine self.s level option true env.sizeof_int).2.ret ≠ -1 →
      env.sizeof_int < (E.nn_getsockopt w.engine self.s level option true env.sizeof_int).2.optsize →
      (NNSocket__nn_getsockopt env E self w level option type).ret = none ∧
      (NNSocket__nn_getsockopt env E self w level option type).w.exc
        = some ⟨ExcKind.ValueError, some "internal overflow"⟩) ∧
    (type = env.NN_TYPE_STR →
      (E.nn_getsockopt w.engine self.s level option true 4096).2.ret ≠ -1 →
      4096 < (E.nn_getsockopt w.engine self.s level option true 4096).2.optsize →
      (NNSocket__nn_getsockopt env E self w level option type).ret = none ∧
      (NNSocket__nn_getsockopt env E self w level option type).w.exc
        = some ⟨ExcKind.ValueError, some "internal overflow"⟩) ∧
    (type = env.NN_TYPE_NONE →
      (E.nn_getsockopt w.engine self.s level option false 0).2.ret ≠ -1 →
      0 < (E.nn_getsockopt w.engine self.s level option false 0).2.optsize →
      (NNSocket__nn_getsockopt env E self w level option type).ret = none ∧
      (NNSocket__nn_getsockopt env E self w level option type).w.exc
        = some ⟨ExcKind.ValueError, some "internal overflow"⟩) ∧
    (∀ bs, (NNSocket__nn_getsockopt env E self w level option type).ret
        = some (PyObject.unicode bs) →
      type = env.NN_TYPE_STR ∧
      bs = (storeInto 4096 w.junk
              (E.nn_getsockopt w.engine self.s level option true 4096).2.written).take
            (E.nn_getsockopt w.engine self.s level option true 4096).2.optsize ∧
      bs.length = (E.nn_getsockopt w.engine self.s level option true 4096).2.optsize ∧
      bs.length ≤ 4096) := by
  obtain ⟨hd1, hd2, hd3⟩ := hd
  refine ⟨?_, ?_, ?_, ?_⟩
  · intro ht hr ho
    subst ht
    simp [NNSocket__nn_getsockopt, NNSocket__nn_getsockopt_call, call_nn_getsockopt,
      World.after, PyErr_Format, hr, ho]
  · intro ht hr ho
    subst ht
    simp [NNSocket__nn_getsockopt, NNSocket__nn_getsockopt_call, call_nn_getsockopt,
      World.after, PyErr_Format, hr, ho, Ne.symm hd1]
  · intro ht hr ho
    subst ht
    simp [NNSocket__nn_getsockopt, NNSocket__nn_getsockopt_call, call_nn_getsockopt,
      World.after, PyErr_Format, hr, ho, Ne.symm hd2, Ne.symm hd3]
  · intro bs
    simp only [NNSocket__nn_getsockopt]
    by_cases h1 : type = env.NN_TYPE_INT
    · rw [if_pos h1]
      intro h
      exact absurd h1 (getsockopt_call_unicode env E self w level option type true _ bs h).1
    · rw [if_neg h1]
      by_cases h2 : type = env.NN_TYPE_STR
      · rw [if_pos h2]
        intro h
        exact (getsockopt_call_unicode env E self w level option type true 4096 bs h).2
      · rw [if_neg h2]
        by_cases h7 : type = env.NN_TYPE_NONE
        · rw [if_pos h7]
          intro h
          exact absurd (getsockopt_call_unicode env E self w level option type false 0 bs h).2.1 h2
        · rw [if_neg h7]
          intro h
          exact absurd h (by simp)

/-- Witness of `getsockopt_checks_reported_size`: the engine holds a five-byte
value and an `int`, then no value, is asked for; it holds 4097 bytes and a
string is asked for; it holds the two bytes of `hi` and they come back as a
string of length 2. -/
theorem getsockopt_checks_reported_size_witness :
    linux.tagsDistinct ∧
    ((NNSocket__nn_getsockopt linux storeEngine ⟨3⟩
        (World.start (fun _ _ _ => some [1, 2, 3, 4, 5])) 0 1 linux.NN_TYPE_INT).ret = none ∧
      (NNSocket__nn_getsockopt linux storeEngine ⟨3⟩
        (World.start (fun _ _ _ => some [1, 2, 3, 4, 5])) 0 1 linux.NN_TYPE_INT).w.exc
        = some ⟨ExcKind.ValueError, some "internal overflow"⟩) ∧
    (NNSocket__nn_getsockopt linux storeEngine ⟨3⟩
        (World.start (fun _ _ _ => some [1, 2, 3, 4, 5])) 0 1 linux.NN_TYPE_NONE).ret = none ∧
    (NNSocket__nn_getsockopt linux storeEngine ⟨3⟩
        (World.start (fun _ _ _ => some (List.replicate 4097 97))) 0 1 linux.NN_TYPE_STR).ret
      = none ∧
    ((NNSocket__nn_getsockopt linux storeEngine ⟨3⟩
        (NNSocket__nn_setsockopt_call storeEngine ⟨3⟩ (World.start fun _ _ _ => none) 0 1
          (some [104, 105]) 2).w 0 1 linux.NN_TYPE_STR).ret
        = some (PyObject.unicode [104, 105]) ∧
      ([104, 105] : List Byte).length ≤ 4096) := by
  have hu : (NNSocket__nn_getsockopt linux storeEngine ⟨3⟩
      (NNSocket__nn_setsockopt_call storeEngine ⟨3⟩ (World.start fun _ _ _ => none) 0 1
        (some [104, 105]) 2).w 0 1 linux.NN_TYPE_STR).ret
      = some (PyObject.unicode [104, 105]) := by
    rw [getsockopt_str_eq linux storeEngine _ _ _ _ (by decide)]
    have h := (store_set_then_get_call linux ⟨3⟩ (World.start fun _ _ _ => none) 0 1
      linux.NN_TYPE_STR [104, 105] 2 4096 rfl (Nat.le_of_ble_eq_true rfl)).2.2.1
    rw [if_neg (by decide), if_pos rfl, if_pos (by decide)] at h
    exact h
  have hbig : 4096 < (storeEngine.nn_getsockopt (World.start
      (fun _ _ _ => some (List.replicate 4097 (97 : Byte)))).engine 3 0 1 true 4096).2.optsize := by
    show 4096 < (List.replicate 4097 (97 : Byte)).length
    rw [List.length_replicate]
    exact Nat.lt_succ_self 4096
  exact ⟨by decide,
    (getsockopt_checks_reported_size linux storeEngine ⟨3⟩
      (World.start (fun _ _ _ => some [1, 2, 3, 4, 5])) 0 1 linux.NN_TYPE_INT (by decide)).1
      rfl (by decide) (by decide),
    ((getsockopt_checks_reported_size linux storeEngine ⟨3⟩
      (World.start (fun _ _ _ => some [1, 2, 3, 4, 5])) 0 1 linux.NN_TYPE_NONE (by decide)).2.2.1
      rfl (by decide) (by decide)).1,
    ((getsockopt_checks_reported_size linux storeEngine ⟨3⟩
      (World.start (fun _ _ _ => some (List.replicate 4097 97))) 0 1 linux.NN_TYPE_STR
      (by decide)).2.1 rfl (by decide) hbig).1,
    hu,
    ((getsockopt_checks_reported_size linux storeEngine ⟨3⟩
      (NNSocket__nn_setsockopt_call storeEngine ⟨3⟩ (World.start fun _ _ _ => none) 0 1
        (some [104, 105]) 2).w 0 1 linux.NN_TYPE_STR (by decide)).2.2.2 [104, 105] hu).2.2.2⟩

/-- C6, counterexample: over `storeEngine` on Linux, `_nn_setsockopt` accepts
each of these values and the `_nn_getsockopt` that follows does not return it:
a string of 4097 bytes (the size check fails), the integer 2147483648 (the
value read back is -2147483648), the byte 0xFF (the decoder refuses it), and
the byte `a` (a text string comes back where a bytes object was set); and the
integer 18446744073709551616 is not accepted. -/
theorem set_then_get_does_not_return_value :
    ((setThenGet linux storeEngine ⟨3⟩ (World.start fun _ _ _ => none) 0 1 linux.NN_TYPE_STR
        (PyObject.bytes (List.replicate 4097 97))).1.ret = some PyObject.None ∧
      (setThenGet linux storeEngine ⟨3⟩ (World.start fun _ _ _ => none) 0 1 linux.NN_TYPE_STR
        (PyObject.bytes (List.replicate 4097 97))).2.ret = none ∧
      (setThenGet linux storeEngine ⟨3⟩ (World.start fun _ _ _ => none) 0 1 linux.NN_TYPE_STR
        (PyObject.bytes (List.replicate 4097 97))).2.w.exc
        = some ⟨ExcKind.ValueError, some "internal overflow"⟩) ∧
    ((setThenGet linux storeEngine ⟨3⟩ (World.start fun _ _ _ => none) 0 1 linux.NN_TYPE_INT
        (PyObject.long 2147483648)).1.ret = some PyObject.None ∧
      (setThenGet linux storeEngine ⟨3⟩ (World.start fun _ _ _ => none) 0 1 linux.NN_TYPE_INT
        (PyObject.long 2147483648)).2.ret = some (PyObject.long (-2147483648))) ∧
    ((setThenGet linux storeEngine ⟨3⟩ (World.start fun _ _ _ => none) 0 1 linux.NN_TYPE_STR
        (PyObject.bytes [0xFF])).1.ret = some PyObject.None ∧
      (setThenGet linux storeEngine ⟨3⟩ (World.start fun _ _ _ => none) 0 1 linux.NN_TYPE_STR
        (PyObject.bytes [0xFF])).2.ret = none ∧
      (setThenGet linux storeEngine ⟨3⟩ (World.start fun _ _ _ => none) 0 1 linux.NN_TYPE_STR
        (PyObject.bytes [0xFF])).2.w.exc = some ⟨ExcKind.UnicodeDecodeError, none⟩) ∧
    ((setThenGet linux storeEngine ⟨3⟩ (World.start fun _ _ _ => none) 0 1 linux.NN_TYPE_STR
        (PyObject.bytes [97])).1.ret = some PyObject.None ∧
      (setThenGet linux storeEngine ⟨3⟩ (World.start fun _ _ _ => none) 0 1 linux.NN_TYPE_STR
        (PyObject.bytes [97])).2.ret = some (PyObject.unicode [97]) ∧
      (setThenGet linux storeEngine ⟨3⟩ (World.start fun _ _ _ => none) 0 1 linux.NN_TYPE_STR
        (PyObject.bytes [97])).2.ret ≠ some (PyObject.bytes [97])) ∧
    (setThenGet linux storeEngine ⟨3⟩ (World.start fun _ _ _ => none) 0 1 linux.NN_TYPE_INT
      (PyObject.long 18446744073709551616)).1.ret = none := by
  have hd : linux.NN_TYPE_INT ≠ linux.NN_TYPE_STR := by decide
  have hne : ¬ linux.NN_TYPE_STR = linux.NN_TYPE_INT := by decide
  have hlong : 4096 < (List.replicate 4097 (97 : Byte)).length := by
    rw [List.length_replicate]; exact Nat.lt_succ_self 4096
  have hbig := store_set_then_get_call_overflow linux ⟨3⟩ (World.start fun _ _ _ => none) 0 1
    linux.NN_TYPE_STR (List.replicate 4097 97) (List.replicate 4097 (97 : Byte)).length 4096
    rfl hlong
  have hff := store_set_then_get_call linux ⟨3⟩ (World.start fun _ _ _ => none) 0 1
    linux.NN_TYPE_STR [0xFF] ([0xFF] : List Byte).length 4096 rfl (Nat.le_of_ble_eq_true rfl)
  have ha := store_set_then_get_call linux ⟨3⟩ (World.start fun _ _ _ => none) 0 1
    linux.NN_TYPE_STR [97] ([97] : List Byte).length 4096 rfl (Nat.le_of_ble_eq_true rfl)
  rw [if_neg hne, if_pos rfl, if_neg (by decide)] at hff
  rw [if_neg hne, if_pos rfl, if_pos (by decide)] at ha
  simp only [setThenGet_str _ _ _ _ _ _ hd]
  refine ⟨⟨?_, hbig.1, hbig.2⟩, ⟨?_, ?_⟩, ⟨?_, hff.2.2.1, ?_⟩, ⟨?_, ha.2.2.1, ?_⟩, ?_⟩
  · exact (store_setsockopt_call _ _ _ _ _ _).1
  · decide
  · decide
  · exact (store_setsockopt_call _ _ _ _ _ _).1
  · exact hff.2.2.2 hne rfl (by decide)
  · exact (store_setsockopt_call _ _ _ _ _ _).1
  · exact ha.2.2.1.trans_ne (by decide)
  · decide

/-- C6, amended: over `storeEngine`, with pairwise different type tags and the
error indicator clear, `_nn_setsockopt` followed by `_nn_getsockopt` on the
same level, option and tag behaves as follows.  `NN_TYPE_INT`: every integer
that fits a `long` is accepted and the value read back is its reduction to the
range of `int`, which is the integer itself when it fits an `int`.
`NN_TYPE_STR`: every bytes value is accepted, and for one of at most 4096
bytes what is read back is the text string whose UTF-8 encoding is that value
when the host's decoder accepts it, `UnicodeDecodeError` otherwise.  `NN_TYPE_NONE`:
both calls succeed and return `None`, whatever the value. -/
theorem set_then_get_over_store_engine (env : Env) (self : NNSocket)
    (w : World (Int → Int → Int → Option (List Byte))) (level option : Int)
    (hd : env.tagsDistinct) (hexc : w.exc = none) :
    (∀ v : Int, inRange (8 * env.sizeof_long) v →
      (setThenGet env storeEngine self w level option env.NN_TYPE_INT (PyObject.long v)).1.ret
        = some PyObject.None ∧
      (setThenGet env storeEngine self w level option env.NN_TYPE_INT (PyObject.long v)).2.ret
        = some (PyObject.long (wrapSigned (8 * env.sizeof_int) v)) ∧
      (0 < env.sizeof_int → inRange (8 * env.sizeof_int) v →
        (setThenGet env storeEngine self w level option env.NN_TYPE_INT (PyObject.long v)).2.ret
          = some (PyObject.long v))) ∧
    (∀ b : List Byte, b.length ≤ 4096 →
      (setThenGet env storeEngine self w level option env.NN_TYPE_STR (PyObject.bytes b)).1.ret
        = some PyObject.None ∧
      (env.utf8_valid b = true →
        (setThenGet env storeEngine self w level option env.NN_TYPE_STR (PyObject.bytes b)).2.ret
          = some (PyObject.unicode b)) ∧
      (env.utf8_valid b = false →
        (setThenGet env storeEngine self w level option env.NN_TYPE_STR (PyObject.bytes b)).2.ret
          = none ∧
        (setThenGet env storeEngine self w level option env.NN_TYPE_STR
          (PyObject.bytes b)).2.w.exc = some ⟨ExcKind.UnicodeDecodeError, none⟩)) ∧
    (∀ value : PyObject,
      (setThenGet env storeEngine self w level option env.NN_TYPE_NONE value).1.ret
        = some PyObject.None ∧
      (setThenGet env storeEngine self w level option env.NN_TYPE_NONE value).2.ret
        = some PyObject.None) ∧
    (∀ b : List Byte,
      (setThenGet env storeEngine self w level option env.NN_TYPE_STR (PyObject.bytes b)).1.ret
        = some PyObject.None) := by
  obtain ⟨hd1, hd2, hd3⟩ := hd
  have hsi : ¬ env.NN_TYPE_STR = env.NN_TYPE_INT := fun h => hd1 h.symm
  have hni : ¬ env.NN_TYPE_NONE = env.NN_TYPE_INT := fun h => hd2 h.symm
  have hns : ¬ env.NN_TYPE_NONE = env.NN_TYPE_STR := fun h => hd3 h.symm
  refine ⟨?_, ?_, ?_, ?_⟩
  · intro v hv
    have hlen : (intToBytes env.sizeof_int (wrapSigned (8 * env.sizeof_int) v)).length
        = env.sizeof_int := natToBytes_length _ _
    have key := store_set_then_get_call env self w level option env.NN_TYPE_INT
      (intToBytes env.sizeof_int (wrapSigned (8 * env.sizeof_int) v)) env.sizeof_int
      env.sizeof_int hlen.symm (le_of_eq hlen)
    have hbuf : storeInto env.sizeof_int w.junk
        (intToBytes env.sizeof_int (wrapSigned (8 * env.sizeof_int) v))
        = intToBytes env.sizeof_int (wrapSigned (8 * env.sizeof_int) v) := by
      have h := storeInto_full w.junk
        (intToBytes env.sizeof_int (wrapSigned (8 * env.sizeof_int) v))
      rwa [hlen] at h
    rw [if_pos rfl, hbuf, bytesToInt_intToBytes, wrapSigned_idem] at key
    simp only [setThenGet_int env self w level option v hexc hv]
    refine ⟨key.1, key.2.2.1, fun hpos hr => ?_⟩
    rw [key.2.2.1, wrapSigned_of_inRange _ _ (by omega) hr]
  · intro b hb
    have key := store_set_then_get_call env self w level option env.NN_TYPE_STR b b.length 4096
      rfl hb
    rw [if_neg hsi, if_pos rfl] at key
    simp only [setThenGet_str env self w level option b hd1]
    refine ⟨key.1, fun hv => ?_, fun hv => ⟨?_, key.2.2.2 hsi rfl hv⟩⟩
    · rw [key.2.2.1, if_pos hv]
    · rw [key.2.2.1, if_neg (by simp [hv])]
  · intro value
    simp [setThenGet, NNSocket__nn_setsockopt, NNSocket__nn_getsockopt,
      NNSocket__nn_setsockopt_call, NNSocket__nn_getsockopt_call, call_nn_setsockopt,
      call_nn_getsockopt, World.after, storeEngine, hni, hns]
  · intro b
    simp only [setThenGet_str env self w level option b hd1]
    exact (store_setsockopt_call self w level option (some b) b.length).1

/-- Witness of `set_then_get_over_store_engine`: the integer -5, the string
`hi` and the byte 0xFF on Linux. -/
theorem set_then_get_over_store_engine_witness :
    linux.tagsDistinct ∧ (World.start fun _ _ _ => none :
      World (Int → Int → Int → Option (List Byte))).exc = none ∧
    (inRange (8 * linux.sizeof_long) (-5) ∧ 0 < linux.sizeof_int ∧
      inRange (8 * linux.sizeof_int) (-5) ∧
      (setThenGet linux storeEngine ⟨3⟩ (World.start fun _ _ _ => none) 0 1 linux.NN_TYPE_INT
        (PyObject.long (-5))).2.ret = some (PyObject.long (-5))) ∧
    (([104, 105] : List Byte).length ≤ 4096 ∧ linux.utf8_valid [104, 105] = true ∧
      (setThenGet linux storeEngine ⟨3⟩ (World.start fun _ _ _ => none) 0 1 linux.NN_TYPE_STR
        (PyObject.bytes [104, 105])).2.ret = some (PyObject.unicode [104, 105])) ∧
    (([0xFF] : List Byte).length ≤ 4096 ∧ linux.utf8_valid [0xFF] = false ∧
      (setThenGet linux storeEngine ⟨3⟩ (World.start fun _ _ _ => none) 0 1 linux.NN_TYPE_STR
        (PyObject.bytes [0xFF])).2.ret = none) :=
  ⟨by decide, rfl,
    ⟨by decide, by decide, by decide,
      ((set_then_get_over_store_engine linux ⟨3⟩ (World.start fun _ _ _ => none) 0 1
        (by decide) rfl).1 (-5) (by decide)).2.2 (by decide) (by decide)⟩,
    ⟨by decide, by decide,
      ((set_then_get_over_store_engine linux ⟨3⟩ (World.start fun _ _ _ => none) 0 1
        (by decide) rfl).2.1 [104, 105] (by decide)).2.1 (by decide)⟩,
    ⟨by decide, by decide,
      (((set_then_get_over_store_engine linux ⟨3⟩ (World.start fun _ _ _ => none) 0 1
        (by decide) rfl).2.1 [0xFF] (by decide)).2.2 (by decide)).1⟩⟩

/-! ## The descriptor -/

/-- C9: over an engine whose `nn_socket` returns -1 or a non-negative
descriptor: when it does not return -1, `NNSocket_init` succeeds, the field `s`
is the value the engine returned, it is non-negative, and it is the same after
every sequence of `_nn_bind`, `_nn_connect`, `_nn_send`, `_nn_recv`,
`_nn_getsockopt`, `_nn_setsockopt`, `_nn_shutdown`, `_nn_get_statistic` and
`_nn_device` calls, whatever their outcomes; when it returns -1,
`NNSocket_init` fails with `OSError` and the handle object is as before. -/
theorem descriptor_set_by_init_and_stable (env : Env) (E : Engine σ) (self : NNSocket)
    (w : World σ) (domain protocol : Int)
    (hcontract : (E.nn_socket w.engine domain protocol).2.ret = -1 ∨
      0 ≤ (E.nn_socket w.engine domain protocol).2.ret) :
    ((E.nn_socket w.engine domain protocol).2.ret ≠ -1 →
      (NNSocket_init E self w domain protocol).ret = 0 ∧
      (NNSocket_init E self w domain protocol).self.s
        = (E.nn_socket w.engine domain protocol).2.ret ∧
      0 ≤ (NNSocket_init E self w domain protocol).self.s ∧
      ∀ ops : List Op,
        (runOps env E (NNSocket_init E self w domain protocol).self
            (NNSocket_init E self w domain protocol).w ops).1.s
          = (E.nn_socket w.engine domain protocol).2.ret) ∧
    ((E.nn_socket w.engine domain protocol).2.ret = -1 →
      (NNSocket_init E self w domain protocol).ret = -1 ∧
      (NNSocket_init E self w domain protocol).self = self ∧
      (NNSocket_init E self w domain protocol).w.exc = some ⟨ExcKind.OSError,
        some ("nn_socket error: " ++
          E.nn_strerror (E.nn_socket w.engine domain protocol).2.errno)⟩) := by
  constructor
  · intro hok
    have hnn : 0 ≤ (E.nn_socket w.engine domain protocol).2.ret :=
      hcontract.resolve_left hok
    have hs : (NNSocket_init E self w domain protocol).self.s
        = (E.nn_socket w.engine domain protocol).2.ret := by
      simp [NNSocket_init, call_nn_socket, hok]
    refine ⟨?_, hs, hs ▸ hnn, ?_⟩
    · simp [NNSocket_init, call_nn_socket, hok]
    · intro ops
      rw [runOps_self, hs]
  · intro hfail
    simp [NNSocket_init, call_nn_socket, World.after, PyErr_Format, hfail]

/-- Witness of `descriptor_set_by_init_and_stable`: the engine hands out the
descriptor 5, which survives a failed send, a receive and an unsupported call;
over an engine whose `nn_socket` fails the handle keeps its old field. -/
theorem descriptor_set_by_init_and_stable_witness :
    ((((eintrEngine linux 1 [7, 8]).nn_socket 0 1 16).2.ret = -1 ∨
        0 ≤ ((eintrEngine linux 1 [7, 8]).nn_socket 0 1 16).2.ret) ∧
      ((eintrEngine linux 1 [7, 8]).nn_socket 0 1 16).2.ret ≠ -1 ∧
      (runOps linux (eintrEngine linux 1 [7, 8])
          (NNSocket_init (eintrEngine linux 1 [7, 8]) ⟨0⟩ (World.start 0) 1 16).self
          (NNSocket_init (eintrEngine linux 1 [7, 8]) ⟨0⟩ (World.start 0) 1 16).w
          [Op._nn_send [1] 0, Op._nn_recv 0, Op._nn_device]).1.s = 5) ∧
    ((((failEngine 9).nn_socket () 1 16).2.ret = -1 ∨
        0 ≤ ((failEngine 9).nn_socket () 1 16).2.ret) ∧
      ((failEngine 9).nn_socket () 1 16).2.ret = -1 ∧
      (NNSocket_init (failEngine 9) ⟨0⟩ (World.start ()) 1 16).self = ⟨0⟩) :=
  ⟨⟨by decide, by decide,
      (((descriptor_set_by_init_and_stable linux (eintrEngine linux 1 [7, 8]) ⟨0⟩ (World.start 0)
        1 16 (by decide)).1 (by decide)).2.2.2
        [Op._nn_send [1] 0, Op._nn_recv 0, Op._nn_device]).trans (by decide)⟩,
    ⟨by decide, by decide,
      ((descriptor_set_by_init_and_stable linux (failEngine 9) ⟨0⟩ (World.start ())
        1 16 (by decide)).2 (by decide)).2.1⟩⟩

end NanoMsg
